import Mathlib

/-!
Shallow embedding of the froggyOS movement / selection / flocking core
(`src/frog.js`, `src/bubbles.js`, `src/objects.js`, the `ui.js`
selection method and the `animate` loop of the main entry point),
with theorems settling the frozen claims about it.

Numbers are modelled by real numbers; external collaborators (camera
orientation, screen projection, wall clock, random pick) are passed in
as per-frame inputs, matching the specification's treatment of them as
opaque services.  Purely cosmetic collaborators (bubble pools, caustics,
name labels, animation mixers, renderer) are outside the modelled state.
-/

noncomputable section

open Classical

/-- 3-component vector, as THREE.Vector3 with real coordinates. -/
structure Vec3 where
  x : ℝ
  y : ℝ
  z : ℝ

namespace Vec3

@[ext] theorem ext3 {a b : Vec3} (hx : a.x = b.x) (hy : a.y = b.y) (hz : a.z = b.z) :
    a = b := by
  cases a; cases b; simp_all

def add (a b : Vec3) : Vec3 := ⟨a.x + b.x, a.y + b.y, a.z + b.z⟩

def sub (a b : Vec3) : Vec3 := ⟨a.x - b.x, a.y - b.y, a.z - b.z⟩

/-- `multiplyScalar`. -/
def smul (c : ℝ) (v : Vec3) : Vec3 := ⟨c * v.x, c * v.y, c * v.z⟩

instance : Add Vec3 := ⟨add⟩
instance : Sub Vec3 := ⟨sub⟩
instance : SMul ℝ Vec3 := ⟨smul⟩
instance : Zero Vec3 := ⟨⟨0, 0, 0⟩⟩

@[simp] theorem add_def (a b : Vec3) : a + b = ⟨a.x + b.x, a.y + b.y, a.z + b.z⟩ := rfl
@[simp] theorem sub_def (a b : Vec3) : a - b = ⟨a.x - b.x, a.y - b.y, a.z - b.z⟩ := rfl
@[simp] theorem smul_def (c : ℝ) (v : Vec3) : c • v = ⟨c * v.x, c * v.y, c * v.z⟩ := rfl
@[simp] theorem zero_def : (0 : Vec3) = ⟨0, 0, 0⟩ := rfl

/-- Dot product. -/
def dot (a b : Vec3) : ℝ := a.x * b.x + a.y * b.y + a.z * b.z

/-- Squared length. -/
def lengthSq (v : Vec3) : ℝ := v.x * v.x + v.y * v.y + v.z * v.z

/-- `THREE.Vector3.length`. -/
def length (v : Vec3) : ℝ := Real.sqrt v.lengthSq

/-- `a.distanceTo b`. -/
def distanceTo (a b : Vec3) : ℝ := length (a - b)

/-- `THREE.Vector3.normalize`: divides by `length() || 1`, so the zero
vector is left unchanged. -/
def normalize (v : Vec3) : Vec3 :=
  (1 / (if v.length = 0 then 1 else v.length)) • v

/-- `THREE.Vector3.clampLength(0, maxLength)`:
`divideScalar(length || 1).multiplyScalar(max(0, min(maxLength, length)))`. -/
def clampLength (v : Vec3) (maxLength : ℝ) : Vec3 :=
  (max 0 (min maxLength v.length) / (if v.length = 0 then 1 else v.length)) • v

/-- `THREE.Vector3.lerp(target, alpha)`. -/
def lerp (v target : Vec3) (alpha : ℝ) : Vec3 := v + alpha • (target - v)

@[simp] theorem lengthSq_nonneg (v : Vec3) : 0 ≤ v.lengthSq := by
  have hx := mul_self_nonneg v.x
  have hy := mul_self_nonneg v.y
  have hz := mul_self_nonneg v.z
  unfold lengthSq; linarith

@[simp] theorem length_nonneg (v : Vec3) : 0 ≤ v.length := Real.sqrt_nonneg _

theorem distanceTo_comm (a b : Vec3) : a.distanceTo b = b.distanceTo a := by
  unfold distanceTo length lengthSq
  congr 1
  simp only [sub_def]
  ring

/-- Distance comparisons reduce to comparisons of squares. -/
theorem le_distanceTo_of_sq_le {c : ℝ} (hc : 0 ≤ c) {a b : Vec3}
    (h : c ^ 2 ≤ (a - b).lengthSq) : c ≤ a.distanceTo b := by
  unfold distanceTo length
  calc c = Real.sqrt (c ^ 2) := (Real.sqrt_sq hc).symm
    _ ≤ Real.sqrt ((a - b).lengthSq) := Real.sqrt_le_sqrt h

theorem distanceTo_lt_of_sq_lt {c : ℝ} (hc : 0 ≤ c) {a b : Vec3}
    (h : (a - b).lengthSq < c ^ 2) : a.distanceTo b < c := by
  unfold distanceTo length
  have h2 : Real.sqrt ((a - b).lengthSq) < Real.sqrt (c ^ 2) := by
    apply Real.sqrt_lt_sqrt (lengthSq_nonneg _) h
  rwa [Real.sqrt_sq hc] at h2

theorem sq_le_of_le_distanceTo {c : ℝ} {a b : Vec3}
    (h : a.distanceTo b < c) : (a - b).lengthSq < c ^ 2 := by
  unfold distanceTo length at h
  have h0 := lengthSq_nonneg (a - b)
  have := Real.sq_sqrt h0
  nlinarith [Real.sqrt_nonneg ((a - b).lengthSq)]

@[simp] theorem distanceTo_self (a : Vec3) : a.distanceTo a = 0 := by
  unfold distanceTo length lengthSq
  simp

end Vec3

/-- Quaternion, as THREE.Quaternion. -/
structure Quat where
  x : ℝ
  y : ℝ
  z : ℝ
  w : ℝ

/-- `THREE.Vector3.applyQuaternion`: with `t = 2 * cross(q.xyz, v)`,
the result is `v + q.w * t + cross(q.xyz, t)`. -/
def Vec3.applyQuaternion (v : Vec3) (q : Quat) : Vec3 :=
  let tx := 2 * (q.y * v.z - q.z * v.y)
  let ty := 2 * (q.z * v.x - q.x * v.z)
  let tz := 2 * (q.x * v.y - q.y * v.x)
  ⟨v.x + q.w * tx + (q.y * tz - q.z * ty),
   v.y + q.w * ty + (q.z * tx - q.x * tz),
   v.z + q.w * tz + (q.x * ty - q.y * tx)⟩

/-- The identity quaternion. -/
def Quat.id : Quat := ⟨0, 0, 0, 1⟩

@[simp] theorem Vec3.applyQuaternion_id (v : Vec3) : v.applyQuaternion Quat.id = v := by
  unfold applyQuaternion Quat.id
  ext <;> simp

/-- The quaternion of a yaw (Euler y-axis) rotation, as produced by a
THREE object whose `rotation` is `(0, θ, 0)`. -/
def yawQuat (θ : ℝ) : Quat := ⟨0, Real.sin (θ / 2), 0, Real.cos (θ / 2)⟩

/-- `Math.atan2` over the reals (value only needed symbolically). -/
def atan2 (y x : ℝ) : ℝ :=
  if 0 < x then Real.arctan (y / x)
  else if x < 0 then
    (if 0 ≤ y then Real.arctan (y / x) + Real.pi else Real.arctan (y / x) - Real.pi)
  else
    (if 0 < y then Real.pi / 2 else if y < 0 then -(Real.pi / 2) else 0)

/-! ## Data model (part_002 constructor, frog.js, bubbles.js) -/

/-- The six boolean movement-intent flags. -/
structure Movement where
  forward : Bool
  backward : Bool
  left : Bool
  right : Bool
  up : Bool
  down : Bool

/-- `tank.movement.forward || backward || left || right`. -/
def Movement.hasHorizontal (m : Movement) : Bool :=
  m.forward || m.backward || m.left || m.right

/-- `Object.values(tank.movement).some(moving => moving)` — any of the six flags. -/
def Movement.anyFlag (m : Movement) : Bool :=
  m.forward || m.backward || m.left || m.right || m.up || m.down

/-- World-object type tag. -/
inductive OType | folder | txt | pdf

/-- A placed world object (`tank.allObjects` element): position, y-rotation
and type tag; display metadata is not examined by the core. -/
structure WObj where
  position : Vec3
  rotY : ℝ
  otype : OType

/-- The loaded avatar (`tank.frog`): authoritative transform. -/
structure Frog where
  position : Vec3
  rotY : ℝ

/-- A flocking sub-agent (`frogData` of `createAdditionalFrogs`); the target
is a reference into the world-object list, modelled by its index. -/
structure SubAgent where
  position : Vec3
  velocity : Vec3
  acceleration : Vec3
  target : Option Nat
  speed : ℝ
  maxForce : ℝ
  separationRadius : ℝ
  minSeparation : ℝ
  isMoving : Bool
  rotY : ℝ

/-- Autopilot state (`tank.autopilot`), lazily initialized. -/
structure AutopilotState where
  active : Bool
  lastInputTime : ℝ
  targetObject : Option Nat
  idleTimeout : ℝ
  cameraRealignInterval : ℝ
  lastCameraRealign : ℝ
  speed : ℝ

/-- Side-scroller player (`tank.sideScrollerPlayer`); the fields
`jumpPressed`, `droppingThrough`, `isOnGround` start as JS `undefined`,
modelled as `false`. -/
structure SSPlayer where
  position : Vec3
  velocity : Vec3
  isGrounded : Bool
  isOnGround : Bool
  jumpCount : Nat
  maxJumps : Nat
  jumpPressed : Bool
  droppingThrough : Bool
  rotY : ℝ

/-- A side-scroller platform: center position, width, and whether it is
the base ground (`userData.isGround`). -/
structure Platform where
  x : ℝ
  y : ℝ
  width : ℝ
  isGround : Bool

/-- Side-scroller input intents (`tank.sideScrollerInput`). -/
structure SSInput where
  left : Bool
  right : Bool
  jump : Bool
  down : Bool

/-- `tank.config.movement`. -/
structure MovementConfig where
  speed : ℝ
  friction : ℝ
  verticalSpeed : ℝ

/-- `tank.config.swimming` (fields the core reads). -/
structure SwimmingConfig where
  strokeSpeed : ℝ
  floatSpeed : ℝ

/-- `tank.config.world` (fields the core reads). -/
structure WorldConfig where
  collisionDistance : ℝ
  selectionDistance : ℝ

/-- `tank.config.tank`. -/
structure TankBoundsConfig where
  width : ℝ
  floorY : ℝ
  ceilingY : ℝ

/-- `tank.config`. -/
structure Config where
  movement : MovementConfig
  swimming : SwimmingConfig
  world : WorldConfig
  tank : TankBoundsConfig

/-- The configuration values of the part_002 constructor. -/
def defaultConfig : Config :=
  { movement := { speed := 8.0, friction := 6.0, verticalSpeed := 6.0 }
    swimming := { strokeSpeed := 4, floatSpeed := 0.5 }
    world := { collisionDistance := 2.0, selectionDistance := 4.0 }
    tank := { width := 30, floorY := -10, ceilingY := 15 } }

/-- Side-scroller `CONFIG` (bubbles.js). -/
structure SSConfig where
  gravity : ℝ
  jumpForce : ℝ
  moveSpeed : ℝ
  groundY : ℝ
  platformHeight : ℝ
  cameraHeight : ℝ
  playerWidth : ℝ

/-- The literal side-scroller `CONFIG` object of bubbles.js. -/
def ssCONFIG : SSConfig :=
  { gravity := -30, jumpForce := 12, moveSpeed := 8, groundY := -5,
    platformHeight := 0.5, cameraHeight := 5, playerWidth := 1 }

/-- The mutable tank state touched by the modelled core (cosmetic
collaborators — bubbles, labels, mixers, renderer — excluded).
Object references (`selectedObject`, agent and autopilot targets) are
modelled as indices into `allObjects`, whose membership never changes. -/
structure TankState where
  config : Config
  dashForce : ℝ
  frog : Option Frog
  frogPosition : Vec3
  velocity : Vec3
  swimTime : ℝ
  movement : Movement
  dashCooldown : ℝ
  autopilot : Option AutopilotState
  multiFrogMode : Bool
  otherFrogs : List SubAgent
  allObjects : List WObj
  selectedObject : Option Nat
  cameraPos : Vec3
  cameraOffset : Vec3
  sideScrollerMode : Bool
  sideScrollerPlayer : Option SSPlayer
  sideScrollerPlatforms : List Platform
  sideScrollerInput : SSInput
  ssCameraPos : Vec3

/-- Per-frame inputs from external collaborators: the camera orientation,
the camera's world direction, the screen projection of each object
(indexed), the wall clock, and the random pick used by the autopilot. -/
structure FrameExt where
  cameraQuat : Quat
  cameraForward : Vec3
  screenZ : Nat → ℝ
  now : ℝ
  randIndex : Nat

/-! ## Kinematics integrator, dash, camera, animation, autopilot (frog.js) -/

/-- Wrap a signed angle difference into `[-pi, pi]` (frog.js 159-161). -/
def wrapPi (d : ℝ) : ℝ :=
  if |d| > Real.pi then (if d > 0 then d - 2 * Real.pi else d + 2 * Real.pi) else d

/-- The raw intent direction built from the four horizontal flags
(frog.js 106-111): each flag contributes plus or minus 1 on its axis. -/
def rawDirection (mv : Movement) : Vec3 :=
  ⟨(if mv.right then (1 : ℝ) else 0) - (if mv.left then (1 : ℝ) else 0), 0,
   (if mv.backward then (1 : ℝ) else 0) - (if mv.forward then (1 : ℝ) else 0)⟩

/-- `updateMovement(tank, delta)` (frog.js 83-180). -/
def updateMovement (cameraQuat : Quat) (delta : ℝ) (st : TankState) : TankState :=
  match st.frog with
  | none => st
  | some frog =>
    let mv := st.movement
    let friction := st.config.movement.friction
    let v0 := st.velocity
    -- apply friction (gentle with input, steeper plus underwater resistance without)
    let v1 : Vec3 :=
      if mv.hasHorizontal then
        ⟨v0.x - v0.x * friction * delta * 0.2, v0.y, v0.z - v0.z * friction * delta * 0.2⟩
      else
        let decelerationRate := friction * 0.6
        let va : Vec3 := ⟨v0.x - v0.x * decelerationRate * delta, v0.y,
                          v0.z - v0.z * decelerationRate * delta⟩
        ⟨va.x - va.x * 0.3 * delta, va.y, va.z - va.z * 0.3 * delta⟩
    let v2 : Vec3 := ⟨v1.x, v1.y - v1.y * (friction * 0.5) * delta, v1.z⟩
    let direction := (rawDirection mv).normalize
    -- camera-relative movement force
    let v3 :=
      if mv.hasHorizontal then
        v2 + (st.config.movement.speed * delta) • direction.applyQuaternion cameraQuat
      else v2
    -- vertical movement
    let v4 := if mv.up then ⟨v3.x, v3.y + st.config.movement.verticalSpeed * delta, v3.z⟩ else v3
    let v5 := if mv.down then ⟨v4.x, v4.y - st.config.movement.verticalSpeed * delta, v4.z⟩ else v4
    -- dash cooldown
    let dashCooldown' := if st.dashCooldown > 0 then st.dashCooldown - delta else st.dashCooldown
    -- integrate position and clamp to tank bounds
    let p1 := frog.position + delta • v5
    let tankC := st.config.tank
    let p2 : Vec3 := ⟨max (-tankC.width) (min tankC.width p1.x),
                      max tankC.floorY (min tankC.ceilingY p1.y),
                      max (-tankC.width) (min tankC.width p1.z)⟩
    -- rotation toward steer / drift direction
    let rotY' :=
      if mv.hasHorizontal then
        let inputDirection := direction.applyQuaternion cameraQuat
        if inputDirection.length > 0.1 then
          let diff := wrapPi (atan2 inputDirection.x inputDirection.z - frog.rotY)
          frog.rotY + diff * 8.0 * delta
        else frog.rotY
      else if v5.length > 0.3 then
        let velocityDirection := v5.normalize
        let diff := wrapPi (atan2 velocityDirection.x velocityDirection.z - frog.rotY)
        frog.rotY + diff * 2.0 * delta
      else frog.rotY
    { st with frog := some ⟨p2, rotY'⟩, frogPosition := p2, velocity := v5,
              dashCooldown := dashCooldown' }

/-- The dash direction of `performDash` (frog.js 340-356): the
camera-relative intent direction when steering, else the avatar's
current forward. -/
def dashDirection (cameraQuat : Quat) (mv : Movement) (frog : Frog) : Vec3 :=
  if mv.hasHorizontal then
    (rawDirection mv).normalize.applyQuaternion cameraQuat
  else
    (⟨0, 0, 1⟩ : Vec3).applyQuaternion (yawQuat frog.rotY)

/-- `performDash(tank)` (frog.js 337-367). -/
def performDash (cameraQuat : Quat) (st : TankState) : TankState :=
  match st.frog with
  | none => st
  | some frog =>
    if st.dashCooldown > 0 then st
    else
      { st with velocity := st.velocity + st.dashForce • dashDirection cameraQuat st.movement frog,
                dashCooldown := 0.5 }

/-- `updateCameraPosition(tank)` (frog.js 69-78); `lookAt` is external. -/
def updateCameraPosition (st : TankState) : TankState :=
  match st.frog with
  | none => st
  | some frog =>
    { st with cameraPos := st.cameraPos.lerp (frog.position + st.cameraOffset) 0.1 }

/-- `realignCamera(tank)` (frog.js 278-301): camera offset re-derived from
the avatar's forward direction at distance 10 and height 5. -/
def realignCamera (st : TankState) : TankState :=
  match st.frog with
  | none => st
  | some frog =>
    let forward := (⟨0, 0, 1⟩ : Vec3).applyQuaternion (yawQuat frog.rotY)
    { st with cameraOffset := ⟨-forward.x * 10, 5, -forward.z * 10⟩ }

/-- `updateFrogAnimation(tank, delta)` (frog.js 306-332): swim-time advance
and the sinusoidal bob/float applied to the avatar's y coordinate. -/
def updateFrogAnimation (delta : ℝ) (st : TankState) : TankState :=
  match st.frog with
  | none => st
  | some frog =>
    let isMoving := st.movement.anyFlag
    let swimTime' := if isMoving then st.swimTime + delta else st.swimTime
    let y' :=
      if isMoving then
        frog.position.y +
          Real.sin (swimTime' * (st.config.swimming.strokeSpeed * 2)) * 0.05 * delta
      else
        frog.position.y + Real.sin (swimTime' * st.config.swimming.floatSpeed) * 0.02 * delta
    let p' : Vec3 := ⟨frog.position.x, y', frog.position.z⟩
    { st with frog := some ({ frog with position := p' }), frogPosition := p',
              swimTime := swimTime' }

/-- The lazily-initialized autopilot state (frog.js 189-199). -/
def autopilotInit (now : ℝ) : AutopilotState :=
  { active := false, lastInputTime := now, targetObject := none, idleTimeout := 5000,
    cameraRealignInterval := 8000, lastCameraRealign := now, speed := 0.3 }

/-- `updateAutopilot(tank, delta)` (frog.js 185-273).  Wall clock and the
random candidate pick come from the per-frame external inputs. -/
def updateAutopilot (ext : FrameExt) (delta : ℝ) (st : TankState) : TankState :=
  match st.frog with
  | none => st
  | some frog =>
  match st.allObjects with
  | [] => st
  | _ :: _ =>
    let ap0 := st.autopilot.getD (autopilotInit ext.now)
    let timeSinceInput := ext.now - ap0.lastInputTime
    if st.movement.anyFlag then
      { st with
          autopilot := some ({ ap0 with lastInputTime := ext.now, active := false,
                                        targetObject := none }) }
    else if timeSinceInput > ap0.idleTimeout then
      let ap1 := { ap0 with active := true }
      -- pick a new target if there is none or the current one was reached
      let needNew : Prop :=
        match ap1.targetObject with
        | none => True
        | some ti =>
          match st.allObjects.get? ti with
          | none => True
          | some tobj => frog.position.distanceTo tobj.position < 5
      let candidates := (List.range st.allObjects.length).filter fun i =>
        decide (match st.allObjects.get? i with
                | none => False
                | some o =>
                  let dist := frog.position.distanceTo o.position
                  8 < dist ∧ dist < 50)
      let target2 : Option Nat :=
        if needNew then
          (if candidates.isEmpty then ap1.targetObject
           else candidates.get? (ext.randIndex % candidates.length))
        else ap1.targetObject
      -- swim towards the target
      let (vel2, rotY2) : Vec3 × ℝ :=
        match target2 with
        | none => (st.velocity, frog.rotY)
        | some ti =>
          match st.allObjects.get? ti with
          | none => (st.velocity, frog.rotY)
          | some tobj =>
            let direction := (tobj.position - frog.position).normalize
            let v1 := st.velocity + (ap1.speed * delta) • direction
            let diff := wrapPi (atan2 direction.x direction.z - frog.rotY)
            let rotYn := frog.rotY + diff * 2.0 * delta
            (⟨v1.x, v1.y + (tobj.position.y - frog.position.y) * 0.1 * delta, v1.z⟩, rotYn)
      -- periodic camera realign
      let realignForward := (⟨0, 0, 1⟩ : Vec3).applyQuaternion (yawQuat rotY2)
      let doRealign : Prop := ext.now - ap1.lastCameraRealign > ap1.cameraRealignInterval
      let offset' : Vec3 :=
        if doRealign then ⟨-realignForward.x * 10, 5, -realignForward.z * 10⟩
        else st.cameraOffset
      let lastRealign' : ℝ := if doRealign then ext.now else ap1.lastCameraRealign
      let ap2 := { ap1 with targetObject := target2, lastCameraRealign := lastRealign' }
      { st with
          autopilot := some ap2
          velocity := vel2
          frog := some ({ frog with rotY := rotY2 })
          cameraOffset := offset'
          swimTime := st.swimTime + delta * 0.5 }
    else
      { st with autopilot := some ap0 }

/-! ## Flocking sub-agents (frog.js 492-693).  Each helper receives the
avatar position (`tank.frogPosition`) and the list of the *other*
sub-agents (source iterates `tank.otherFrogs` skipping `frogData` by
object identity). -/

/-- `checkMinimumSeparation(tank, frogData)` (frog.js 566-579). -/
def checkMinimumSeparation (frogPosition : Vec3) (others : List SubAgent)
    (a : SubAgent) : Prop :=
  a.position.distanceTo frogPosition < a.minSeparation ∨
  ∃ o ∈ others, a.position.distanceTo o.position < a.minSeparation

/-- `wouldCauseOverlap(tank, frogData, newPosition)` (frog.js 584-599). -/
def wouldCauseOverlap (frogPosition : Vec3) (others : List SubAgent)
    (a : SubAgent) (newPosition : Vec3) : Prop :=
  newPosition.distanceTo frogPosition < a.minSeparation ∨
  ∃ o ∈ others, newPosition.distanceTo o.position < a.minSeparation

/-- `calculateSeek(frogData, targetPosition)` (frog.js 604-615). -/
def calculateSeek (a : SubAgent) (targetPosition : Vec3) : Vec3 :=
  let desired := a.speed • (targetPosition - a.position).normalize
  (desired - a.velocity).clampLength a.maxForce

/-- `calculateSeparation(tank, frogData)` (frog.js 620-662): accumulate a
linear repulsion from the avatar and every other sub-agent within
`separationRadius`, average, then steer. -/
def calculateSeparation (frogPosition : Vec3) (others : List SubAgent)
    (a : SubAgent) : Vec3 :=
  let distanceToPlayer := a.position.distanceTo frogPosition
  let acc0 : Vec3 × Nat :=
    if distanceToPlayer < a.separationRadius ∧ 0.01 < distanceToPlayer then
      ((1.0 - distanceToPlayer / a.separationRadius) • (a.position - frogPosition).normalize, 1)
    else (0, 0)
  let acc1 : Vec3 × Nat := others.foldl
    (fun acc o =>
      let distance := a.position.distanceTo o.position
      if distance < a.separationRadius ∧ 0.01 < distance then
        (acc.1 + (1.0 - distance / a.separationRadius) • (a.position - o.position).normalize,
         acc.2 + 1)
      else acc)
    acc0
  if 0 < acc1.2 then
    let avg := (1 / (acc1.2 : ℝ)) • acc1.1
    if avg.length > 0 then
      ((a.speed * 0.5) • avg.normalize - a.velocity).clampLength a.maxForce
    else avg
  else acc1.1

/-- The per-tick steering acceleration of `updateFrogMovement`
(frog.js 518-532): emergency pure separation when too close, otherwise
seek plus weighted separation. -/
def frogTickAcceleration (frogPosition : Vec3) (others : List SubAgent)
    (a : SubAgent) (targetPosition : Vec3) : Vec3 :=
  if checkMinimumSeparation frogPosition others a then
    (1.5 : ℝ) • calculateSeparation frogPosition others a
  else
    (1.0 : ℝ) • calculateSeek a targetPosition +
      (0.8 : ℝ) • calculateSeparation frogPosition others a

/-- The velocity of a sub-agent tick (frog.js 534-538): integrate the
acceleration, then clamp the magnitude to the agent's speed. -/
def frogTickVelocity (frogPosition : Vec3) (others : List SubAgent) (a : SubAgent)
    (targetPosition : Vec3) (delta : ℝ) : Vec3 :=
  let v1 := a.velocity + delta • frogTickAcceleration frogPosition others a targetPosition
  if v1.length > a.speed then a.speed • v1.normalize else v1

/-- `updateFrogMovement(tank, frogData, delta)` (frog.js 513-561).
The stored scratch `acceleration` ends as `delta • force` because the
source integrates via in-place `multiplyScalar(delta)`. -/
def updateFrogMovement (frogPosition : Vec3) (allObjects : List WObj)
    (others : List SubAgent) (delta : ℝ) (a : SubAgent) : SubAgent :=
  match a.target with
  | none => a
  | some ti =>
    match allObjects.get? ti with
    | none => a
    | some tobj =>
      let v2 := frogTickVelocity frogPosition others a tobj.position delta
      let newPosition := a.position + delta • v2
      let committed : Prop := ¬ wouldCauseOverlap frogPosition others a newPosition
      let pos' := if committed then newPosition else a.position
      let v3 := if committed then v2 else (0.5 : ℝ) • v2
      if pos'.distanceTo tobj.position < 5.0 then
        { a with position := pos', velocity := 0,
                 acceleration := delta • frogTickAcceleration frogPosition others a tobj.position,
                 isMoving := false, target := none }
      else
        let rotY' := if v3.length > 0.1 then atan2 v3.x v3.z else a.rotY
        { a with position := pos', velocity := v3,
                 acceleration := delta • frogTickAcceleration frogPosition others a tobj.position,
                 rotY := rotY' }

/-- One step of the `tank.otherFrogs.forEach` loop of
`updateAdditionalFrogs` (frog.js 495-507): agents already processed sit
in `done`, the rest in the tail; an agent moves only when it has a target
and `isMoving`. -/
def agentsGo (frogPosition : Vec3) (allObjects : List WObj) (delta : ℝ) :
    List SubAgent → List SubAgent → List SubAgent
  | done, [] => done
  | done, a :: rest =>
    let a' := if a.target.isSome && a.isMoving
              then updateFrogMovement frogPosition allObjects (done ++ rest) delta a
              else a
    agentsGo frogPosition allObjects delta (done ++ [a']) rest

/-- `updateAdditionalFrogs(tank, delta)` (frog.js 492-508), restricted to
the steering state (mixers and name labels are cosmetic). -/
def updateAdditionalFrogs (delta : ℝ) (st : TankState) : TankState :=
  if st.multiFrogMode then
    { st with otherFrogs := agentsGo st.frogPosition st.allObjects delta [] st.otherFrogs }
  else st

/-- `makeFrogsSwimToFolder(tank, folder)` (frog.js 667-676). -/
def makeFrogsSwimToFolder (folder : Nat) (st : TankState) : TankState :=
  if st.multiFrogMode then
    { st with otherFrogs :=
        st.otherFrogs.map fun a => { a with target := some folder, isMoving := true } }
  else st

/-! ## Selection engine (`updateObjectSelection`, ui.js; part_000 2446-2548) -/

/-- The three candidate gates of `updateObjectSelection`: within selection
distance, projected depth at most 1, and at most 2 units below the
avatar (the source skips on the negations). -/
def selGate (frogPosition : Vec3) (selectionDistance : ℝ) (screenZ : Nat → ℝ)
    (i : Nat) (o : WObj) : Prop :=
  frogPosition.distanceTo o.position ≤ selectionDistance ∧
  screenZ i ≤ 1 ∧
  -2.0 ≤ o.position.y - frogPosition.y

/-- The composite selection score of `updateObjectSelection`. -/
def selScore (frogPosition cameraForward : Vec3) (selectionDistance : ℝ)
    (o : WObj) : ℝ :=
  let distance := frogPosition.distanceTo o.position
  let heightDifference := o.position.y - frogPosition.y
  let dotProduct := (o.position - frogPosition).dot cameraForward
  let distanceScore := (selectionDistance - distance) / selectionDistance
  let frontScore := max 0 (dotProduct / distance)
  let heightScore :=
    if heightDifference > 0 then min 1.0 (heightDifference / 5)
    else max (-2.0) (heightDifference / 2)
  distanceScore * 0.2 + frontScore * 0.3 + heightScore * 0.5

/-- The `allObjects.forEach` best-object fold of `updateObjectSelection`;
`none` plays the role of the initial `bestScore = -Infinity`, and a
candidate wins only on a strictly greater score. -/
def selFold (frogPosition cameraForward : Vec3) (selectionDistance : ℝ)
    (screenZ : Nat → ℝ) : Nat → List WObj → Option (Nat × ℝ) → Option (Nat × ℝ)
  | _, [], best => best
  | i, o :: rest, best =>
    if selGate frogPosition selectionDistance screenZ i o then
      let s := selScore frogPosition cameraForward selectionDistance o
      match best with
      | none => selFold frogPosition cameraForward selectionDistance screenZ
          (i + 1) rest (some (i, s))
      | some best' =>
        if s > best'.2 then
          selFold frogPosition cameraForward selectionDistance screenZ
            (i + 1) rest (some (i, s))
        else
          selFold frogPosition cameraForward selectionDistance screenZ
            (i + 1) rest (some best')
    else selFold frogPosition cameraForward selectionDistance screenZ (i + 1) rest best

/-- The focused-object computation of `updateObjectSelection`. -/
def bestObjectOf (ext : FrameExt) (st : TankState) (frog : Frog) : Option Nat :=
  (selFold frog.position ext.cameraForward st.config.world.selectionDistance
    ext.screenZ 0 st.allObjects none).map Prod.fst

/-- `updateObjectSelection()` (ui.js; part_000 2446-2548): recompute the
focused object; on a change, store it and — when a new object is focused —
redirect the sub-agents (`makeFrogsSwimToFolder`).  Highlight geometry,
info panel and the pulsing border are cosmetic collaborators. -/
def updateObjectSelection (ext : FrameExt) (st : TankState) : TankState :=
  match st.frog with
  | none => st
  | some frog =>
    let bestObject := bestObjectOf ext st frog
    if bestObject ≠ st.selectedObject then
      match bestObject with
      | some sel => makeFrogsSwimToFolder sel { st with selectedObject := bestObject }
      | none => { st with selectedObject := bestObject }
    else st

/-! ## Environment animation and collision response -/

/-- The world-object animation of `updateEnvironment` (scene.js;
part_003 835-868): slow spin, sinusoidal bobbing, clamped to the tank. -/
def updateEnvironment (st : TankState) : TankState :=
  let w := st.config.tank.width
  let fl := st.config.tank.floorY
  let ce := st.config.tank.ceilingY
  { st with allObjects := st.allObjects.enum.map fun io =>
      let i := io.1
      let o := io.2
      let y1 := o.position.y + Real.sin (st.swimTime + i) * 0.01
      { o with rotY := o.rotY + 0.001 + i * 0.0002,
               position := ⟨max (-w) (min w o.position.x),
                            max (fl + 2) (min (ce - 2) y1),
                            max (-w) (min w o.position.z)⟩ } }

/-- `checkCollisions(tank)` (objects.js 534-555): push the avatar's
velocity away from each world object closer than the collision distance. -/
def checkCollisions (st : TankState) : TankState :=
  match st.frog with
  | none => st
  | some frog =>
    let cd := st.config.world.collisionDistance
    let vel' := st.allObjects.foldl
      (fun v o =>
        let distance := frog.position.distanceTo o.position
        if distance < cd ∧ 0.1 < distance then
          let pushForce := (cd - distance) / cd * 0.05
          (0.99 : ℝ) • (v + pushForce • (frog.position - o.position).normalize)
        else v)
      st.velocity
    { st with velocity := vel' }

/-! ## Side-scroller physics (bubbles.js) -/

/-- The initial player of `enterSideScrollerMode` (bubbles.js 427-435);
`jumpPressed`, `droppingThrough` and `isOnGround` start `undefined`. -/
def enterSideScrollerPlayer : SSPlayer :=
  { position := ⟨0, ssCONFIG.groundY, 0⟩, velocity := 0, isGrounded := true,
    isOnGround := false, jumpCount := 0, maxJumps := 2, jumpPressed := false,
    droppingThrough := false, rotY := 0 }

/-- `checkPlatformCollisions(tank)` (bubbles.js 1377-1422).  The span
test uses the player's coordinates as sampled at function entry (the
source hoists them into consts before the loop); the failsafe ground
check uses the current, possibly snapped, position. -/
def checkPlatformCollisions (platforms : List Platform) (p : SSPlayer) : SSPlayer :=
  let playerBottom := p.position.y
  let playerLeft := p.position.x - ssCONFIG.playerWidth / 2
  let playerRight := p.position.x + ssCONFIG.playerWidth / 2
  let p0 := { p with isGrounded := false, isOnGround := false }
  let p1 :=
    if p0.droppingThrough then p0
    else platforms.foldl
      (fun q plat =>
        if plat.isGround then q
        else
          let platTop := plat.y + ssCONFIG.platformHeight / 2
          let platLeft := plat.x - plat.width / 2
          let platRight := plat.x + plat.width / 2
          if q.velocity.y ≤ 0 ∧ playerRight > platLeft ∧ playerLeft < platRight ∧
             playerBottom ≤ platTop + 0.5 ∧ playerBottom ≥ platTop - 1.5 then
            { q with position := ⟨q.position.x, platTop, q.position.z⟩,
                     velocity := ⟨q.velocity.x, 0, q.velocity.z⟩,
                     isGrounded := true, jumpCount := 0 }
          else q)
      p0
  if p1.position.y < ssCONFIG.groundY then
    { p1 with position := ⟨p1.position.x, ssCONFIG.groundY, p1.position.z⟩,
              velocity := ⟨p1.velocity.x, 0, p1.velocity.z⟩,
              isGrounded := true, isOnGround := true, jumpCount := 0 }
  else p1

/-- The input-processing and jump step of `updateSideScroller`
(bubbles.js 1292-1316): direct horizontal velocity, the double-jump
trigger, and the release tracking of the jump key. -/
def ssInputJumpStep (input : SSInput) (p : SSPlayer) : SSPlayer :=
  let vx0 : ℝ := 0
  let vx1 := if input.left then -ssCONFIG.moveSpeed else vx0
  let vx2 := if input.right then ssCONFIG.moveSpeed else vx1
  let p1 := { p with velocity := ⟨vx2, p.velocity.y, p.velocity.z⟩ }
  let p2 :=
    if input.jump && !p1.jumpPressed && !input.down && decide (p1.jumpCount < p1.maxJumps) then
      { p1 with velocity := ⟨p1.velocity.x, ssCONFIG.jumpForce, p1.velocity.z⟩,
                isGrounded := false, jumpCount := p1.jumpCount + 1, jumpPressed := true }
    else p1
  if !input.jump then { p2 with jumpPressed := false } else p2

/-- `updateSideScroller(tank, delta)` (bubbles.js 1284-1374), restricted
to player physics and camera (clouds, file bobbing and the highlight are
cosmetic).  A missing player cannot occur while the mode flag is set. -/
def updateSideScroller (delta : ℝ) (st : TankState) : TankState :=
  if !st.sideScrollerMode then st
  else match st.sideScrollerPlayer with
  | none => st
  | some p0 =>
    let input := st.sideScrollerInput
    let p3 := ssInputJumpStep input p0
    -- drop through platform
    let p4 :=
      if input.down && p3.isGrounded && !p3.isOnGround then
        { p3 with position := ⟨p3.position.x, p3.position.y - 0.5, p3.position.z⟩,
                  isGrounded := false, droppingThrough := true }
      else p3
    let p5 := if !input.down then { p4 with droppingThrough := false } else p4
    -- gravity
    let p6 :=
      if !p5.isGrounded then
        { p5 with velocity := ⟨p5.velocity.x, p5.velocity.y + ssCONFIG.gravity * delta,
                               p5.velocity.z⟩ }
      else p5
    -- integrate, then resolve platform and ground collisions
    let p7 := { p6 with position := p6.position + delta • p6.velocity }
    let p8 := checkPlatformCollisions st.sideScrollerPlatforms p7
    -- face direction of movement
    let p9 :=
      if p8.velocity.x > 0.1 then { p8 with rotY := Real.pi / 2 }
      else if p8.velocity.x < -0.1 then { p8 with rotY := -(Real.pi / 2) }
      else p8
    -- camera follow
    let cx := st.ssCameraPos.x + (p9.position.x - st.ssCameraPos.x) * 0.1
    let cy := st.ssCameraPos.y +
      (max (p9.position.y + 2) ssCONFIG.cameraHeight - st.ssCameraPos.y) * 0.05
    { st with sideScrollerPlayer := some p9, ssCameraPos := ⟨cx, cy, st.ssCameraPos.z⟩ }

/-! ## The animation frame (part_002 `animate`, 320-345) -/

/-- The open-water ("swimming tank") branch of `animate`, in source
order; `updateBubbleTrail`, `updateObjectBubbleStreams` and
`checkObjectVisibility` touch only cosmetic state. -/
def owFrame (ext : FrameExt) (delta : ℝ) (st : TankState) : TankState :=
  checkCollisions
    (updateEnvironment
      (updateObjectSelection ext
        (updateCameraPosition
          (updateAdditionalFrogs delta
            (updateFrogAnimation delta
              (updateAutopilot ext delta
                (updateMovement ext.cameraQuat delta st)))))))

/-- One `animate` callback: the side-scroller update when the mode flag
is set, otherwise the open-water chain (rendering is external). -/
def animateFrame (ext : FrameExt) (delta : ℝ) (st : TankState) : TankState :=
  if st.sideScrollerMode then updateSideScroller delta st
  else owFrame ext delta st

/-! ## Frame bookkeeping lemmas -/

theorem updateMovement_config (q : Quat) (δ : ℝ) (st : TankState) :
    (updateMovement q δ st).config = st.config := by
  unfold updateMovement; repeat' split
  all_goals rfl

theorem updateAutopilot_config (ext : FrameExt) (δ : ℝ) (st : TankState) :
    (updateAutopilot ext δ st).config = st.config := by
  unfold updateAutopilot; (try dsimp only); repeat' split
  all_goals rfl

theorem updateFrogAnimation_config (δ : ℝ) (st : TankState) :
    (updateFrogAnimation δ st).config = st.config := by
  unfold updateFrogAnimation; (try dsimp only); repeat' split
  all_goals rfl

theorem updateAdditionalFrogs_config (δ : ℝ) (st : TankState) :
    (updateAdditionalFrogs δ st).config = st.config := by
  unfold updateAdditionalFrogs; (try dsimp only); repeat' split
  all_goals rfl

theorem updateCameraPosition_config (st : TankState) :
    (updateCameraPosition st).config = st.config := by
  unfold updateCameraPosition; (try dsimp only); repeat' split
  all_goals rfl

theorem updateObjectSelection_config (ext : FrameExt) (st : TankState) :
    (updateObjectSelection ext st).config = st.config := by
  unfold updateObjectSelection makeFrogsSwimToFolder; (try dsimp only); repeat' split
  all_goals rfl

theorem updateEnvironment_config (st : TankState) :
    (updateEnvironment st).config = st.config := by
  unfold updateEnvironment; rfl

theorem checkCollisions_config (st : TankState) :
    (checkCollisions st).config = st.config := by
  unfold checkCollisions; (try dsimp only); repeat' split
  all_goals rfl

theorem updateAdditionalFrogs_frog (δ : ℝ) (st : TankState) :
    (updateAdditionalFrogs δ st).frog = st.frog := by
  unfold updateAdditionalFrogs; (try dsimp only); repeat' split
  all_goals rfl

theorem updateCameraPosition_frog (st : TankState) :
    (updateCameraPosition st).frog = st.frog := by
  unfold updateCameraPosition; (try dsimp only); repeat' split
  all_goals rfl

theorem updateObjectSelection_frog (ext : FrameExt) (st : TankState) :
    (updateObjectSelection ext st).frog = st.frog := by
  unfold updateObjectSelection makeFrogsSwimToFolder; (try dsimp only); repeat' split
  all_goals rfl

theorem updateEnvironment_frog (st : TankState) :
    (updateEnvironment st).frog = st.frog := by
  unfold updateEnvironment; rfl

theorem checkCollisions_frog (st : TankState) :
    (checkCollisions st).frog = st.frog := by
  unfold checkCollisions; (try dsimp only); repeat' split
  all_goals rfl

theorem updateAdditionalFrogs_frogPosition (δ : ℝ) (st : TankState) :
    (updateAdditionalFrogs δ st).frogPosition = st.frogPosition := by
  unfold updateAdditionalFrogs; (try dsimp only); repeat' split
  all_goals rfl

theorem updateCameraPosition_frogPosition (st : TankState) :
    (updateCameraPosition st).frogPosition = st.frogPosition := by
  unfold updateCameraPosition; (try dsimp only); repeat' split
  all_goals rfl

theorem updateObjectSelection_frogPosition (ext : FrameExt) (st : TankState) :
    (updateObjectSelection ext st).frogPosition = st.frogPosition := by
  unfold updateObjectSelection makeFrogsSwimToFolder; (try dsimp only); repeat' split
  all_goals rfl

theorem updateEnvironment_frogPosition (st : TankState) :
    (updateEnvironment st).frogPosition = st.frogPosition := by
  unfold updateEnvironment; rfl

theorem checkCollisions_frogPosition (st : TankState) :
    (checkCollisions st).frogPosition = st.frogPosition := by
  unfold checkCollisions; (try dsimp only); repeat' split
  all_goals rfl

theorem updateAutopilot_dashCooldown (ext : FrameExt) (δ : ℝ) (st : TankState) :
    (updateAutopilot ext δ st).dashCooldown = st.dashCooldown := by
  unfold updateAutopilot; (try dsimp only); repeat' split
  all_goals rfl

theorem updateFrogAnimation_dashCooldown (δ : ℝ) (st : TankState) :
    (updateFrogAnimation δ st).dashCooldown = st.dashCooldown := by
  unfold updateFrogAnimation; (try dsimp only); repeat' split
  all_goals rfl

theorem updateAdditionalFrogs_dashCooldown (δ : ℝ) (st : TankState) :
    (updateAdditionalFrogs δ st).dashCooldown = st.dashCooldown := by
  unfold updateAdditionalFrogs; (try dsimp only); repeat' split
  all_goals rfl

theorem updateCameraPosition_dashCooldown (st : TankState) :
    (updateCameraPosition st).dashCooldown = st.dashCooldown := by
  unfold updateCameraPosition; (try dsimp only); repeat' split
  all_goals rfl

theorem updateObjectSelection_dashCooldown (ext : FrameExt) (st : TankState) :
    (updateObjectSelection ext st).dashCooldown = st.dashCooldown := by
  unfold updateObjectSelection makeFrogsSwimToFolder; (try dsimp only); repeat' split
  all_goals rfl

theorem updateEnvironment_dashCooldown (st : TankState) :
    (updateEnvironment st).dashCooldown = st.dashCooldown := by
  unfold updateEnvironment; rfl

theorem checkCollisions_dashCooldown (st : TankState) :
    (checkCollisions st).dashCooldown = st.dashCooldown := by
  unfold checkCollisions; (try dsimp only); repeat' split
  all_goals rfl

theorem updateMovement_dashCooldown (q : Quat) (δ : ℝ) (st : TankState) (f : Frog)
    (hf : st.frog = some f) :
    (updateMovement q δ st).dashCooldown =
      if st.dashCooldown > 0 then st.dashCooldown - δ else st.dashCooldown := by
  unfold updateMovement; rw [hf]

theorem updateMovement_frog_isSome (q : Quat) (δ : ℝ) (st : TankState) (f : Frog)
    (hf : st.frog = some f) : ∃ f', (updateMovement q δ st).frog = some f' := by
  unfold updateMovement; rw [hf]; dsimp only
  exact ⟨_, rfl⟩

theorem updateAutopilot_frog (ext : FrameExt) (δ : ℝ) (st : TankState) (f : Frog)
    (hf : st.frog = some f) :
    ∃ r, (updateAutopilot ext δ st).frog = some ⟨f.position, r⟩ := by
  unfold updateAutopilot; rw [hf]; (try dsimp only)
  repeat' split
  all_goals first
  | exact ⟨_, rfl⟩
  | exact ⟨f.rotY, by rw [hf]⟩

theorem abs_sin_amp_le (A c δ : ℝ) (hc : 0 ≤ c) : |Real.sin A * c * δ| ≤ c * |δ| := by
  rw [abs_mul, abs_mul, abs_of_nonneg hc]
  have hs := Real.abs_sin_le_one A
  have h := mul_le_mul_of_nonneg_right (mul_le_mul_of_nonneg_right hs hc) (abs_nonneg δ)
  simpa using h

theorem updateFrogAnimation_frog (δ : ℝ) (st : TankState) (f : Frog)
    (hf : st.frog = some f) :
    ∃ y, (updateFrogAnimation δ st).frog = some ⟨⟨f.position.x, y, f.position.z⟩, f.rotY⟩ ∧
      (updateFrogAnimation δ st).frogPosition = ⟨f.position.x, y, f.position.z⟩ ∧
      |y - f.position.y| ≤ 0.05 * |δ| := by
  unfold updateFrogAnimation; rw [hf]; (try dsimp only)
  split
  · refine ⟨_, rfl, rfl, ?_⟩
    rw [add_sub_cancel_left]
    calc |Real.sin ((st.swimTime + δ) * (st.config.swimming.strokeSpeed * 2)) * 0.05 * δ|
        ≤ 0.05 * |δ| := abs_sin_amp_le _ _ _ (by norm_num)
      _ ≤ 0.05 * |δ| := le_refl _
  · refine ⟨_, rfl, rfl, ?_⟩
    rw [add_sub_cancel_left]
    calc |Real.sin (st.swimTime * st.config.swimming.floatSpeed) * 0.02 * δ|
        ≤ 0.02 * |δ| := abs_sin_amp_le _ _ _ (by norm_num)
      _ ≤ 0.05 * |δ| := by have := abs_nonneg δ; linarith

/-! ## Shared concrete states for witnesses -/

/-- All six intent flags off. -/
def idleMovement : Movement := ⟨false, false, false, false, false, false⟩

/-- All side-scroller intents off. -/
def idleSSInput : SSInput := ⟨false, false, false, false⟩

/-- A tank before the avatar model has loaded: no frog, no objects. -/
def emptyTank : TankState :=
  { config := defaultConfig, dashForce := 15.0, frog := none, frogPosition := ⟨0, 0, 0⟩,
    velocity := 0, swimTime := 0, movement := idleMovement, dashCooldown := 0,
    autopilot := none, multiFrogMode := false, otherFrogs := [], allObjects := [],
    selectedObject := none, cameraPos := 0, cameraOffset := ⟨0, 7, 6⟩,
    sideScrollerMode := false, sideScrollerPlayer := none, sideScrollerPlatforms := [],
    sideScrollerInput := idleSSInput, ssCameraPos := 0 }

/-- Neutral per-frame external inputs. -/
def baseExt : FrameExt :=
  { cameraQuat := Quat.id, cameraForward := ⟨0, 0, 1⟩, screenZ := fun _ => 0,
    now := 0, randIndex := 0 }

/-! ## C6: mode exclusivity of the animation frame -/

/-- C6: on every animation frame exactly one of the two per-frame update
paths executes: the side-scroller update when `sideScrollerMode` is set,
otherwise the open-water chain — never both and never neither. -/
theorem animate_mode_exclusive (ext : FrameExt) (δ : ℝ) (st : TankState) :
    (st.sideScrollerMode = true ∧ animateFrame ext δ st = updateSideScroller δ st ∧
       ¬(st.sideScrollerMode = false)) ∨
    (st.sideScrollerMode = false ∧ animateFrame ext δ st = owFrame ext δ st ∧
       ¬(st.sideScrollerMode = true)) := by
  cases h : st.sideScrollerMode
  · right; refine ⟨rfl, ?_, by simp⟩
    unfold animateFrame; rw [h]; simp
  · left; refine ⟨rfl, ?_, by simp⟩
    unfold animateFrame; rw [h]; simp

/-! ## C9: a side-scroller frame leaves the open-water state unchanged -/

theorem updateSideScroller_ow_fields (δ : ℝ) (st : TankState) :
    (updateSideScroller δ st).frog = st.frog ∧
    (updateSideScroller δ st).frogPosition = st.frogPosition ∧
    (updateSideScroller δ st).velocity = st.velocity ∧
    (updateSideScroller δ st).dashCooldown = st.dashCooldown ∧
    (updateSideScroller δ st).selectedObject = st.selectedObject ∧
    (updateSideScroller δ st).otherFrogs = st.otherFrogs := by
  unfold updateSideScroller; (try dsimp only); repeat' split
  all_goals exact ⟨rfl, rfl, rfl, rfl, rfl, rfl⟩

/-- C9: while `sideScrollerMode` is set, an animation frame leaves the
open-water simulation state — the avatar (position and rotation), the
mirrored avatar position, the velocity, the dash cooldown, the focused
object and every sub-agent — unchanged. -/
theorem sideScroller_frame_preserves_openwater (ext : FrameExt) (δ : ℝ) (st : TankState)
    (h : st.sideScrollerMode = true) :
    (animateFrame ext δ st).frog = st.frog ∧
    (animateFrame ext δ st).frogPosition = st.frogPosition ∧
    (animateFrame ext δ st).velocity = st.velocity ∧
    (animateFrame ext δ st).dashCooldown = st.dashCooldown ∧
    (animateFrame ext δ st).selectedObject = st.selectedObject ∧
    (animateFrame ext δ st).otherFrogs = st.otherFrogs := by
  have ha : animateFrame ext δ st = updateSideScroller δ st := by
    unfold animateFrame; rw [h]; simp
  rw [ha]
  exact updateSideScroller_ow_fields δ st

/-- A concrete in-folder state. -/
def folderTank : TankState :=
  { emptyTank with sideScrollerMode := true, sideScrollerPlayer := some enterSideScrollerPlayer }

/-- Witness for C9 at a concrete in-folder state. -/
theorem sideScroller_frame_preserves_openwater_witness :
    (animateFrame baseExt 0.1 folderTank).frog = folderTank.frog ∧
    (animateFrame baseExt 0.1 folderTank).frogPosition = folderTank.frogPosition ∧
    (animateFrame baseExt 0.1 folderTank).velocity = folderTank.velocity ∧
    (animateFrame baseExt 0.1 folderTank).dashCooldown = folderTank.dashCooldown ∧
    (animateFrame baseExt 0.1 folderTank).selectedObject = folderTank.selectedObject ∧
    (animateFrame baseExt 0.1 folderTank).otherFrogs = folderTank.otherFrogs :=
  sideScroller_frame_preserves_openwater baseExt 0.1 folderTank rfl

/-! ## C10: the autopilot is a complete no-op without avatar or objects -/

/-- C10: when the world-object list is empty or the avatar is not loaded,
`updateAutopilot` returns the state unchanged — in particular the
autopilot state is never lazily initialized and no timestamps, velocity
or orientation change, regardless of idle time. -/
theorem updateAutopilot_noop (ext : FrameExt) (δ : ℝ) (st : TankState)
    (h : st.frog = none ∨ st.allObjects = []) :
    updateAutopilot ext δ st = st := by
  rcases h with h | h
  · unfold updateAutopilot; rw [h]
  · unfold updateAutopilot; rw [h]
    cases st.frog <;> rfl

/-- Witness for C10: a concrete idle state with no objects and no avatar. -/
theorem updateAutopilot_noop_witness :
    updateAutopilot baseExt 0.1 emptyTank = emptyTank :=
  updateAutopilot_noop baseExt 0.1 emptyTank (Or.inl rfl)

/-! ## C8: per-tick functions no-op safely without an avatar -/

/-- C8: if the avatar has not been loaded, each per-tick operation of the
open-water core — movement integration, camera follow, autopilot, frog
animation, object selection — returns the state unmodified. -/
theorem no_avatar_noops (q : Quat) (ext : FrameExt) (δ : ℝ) (st : TankState)
    (h : st.frog = none) :
    updateMovement q δ st = st ∧
    updateCameraPosition st = st ∧
    updateAutopilot ext δ st = st ∧
    updateFrogAnimation δ st = st ∧
    updateObjectSelection ext st = st := by
  refine ⟨?_, ?_, ?_, ?_, ?_⟩
  · unfold updateMovement; rw [h]
  · unfold updateCameraPosition; rw [h]
  · unfold updateAutopilot; rw [h]
  · unfold updateFrogAnimation; rw [h]
  · unfold updateObjectSelection; rw [h]

/-- Witness for C8 at the concrete avatar-less state. -/
theorem no_avatar_noops_witness :
    updateMovement Quat.id 0.1 emptyTank = emptyTank ∧
    updateCameraPosition emptyTank = emptyTank ∧
    updateAutopilot baseExt 0.1 emptyTank = emptyTank ∧
    updateFrogAnimation 0.1 emptyTank = emptyTank ∧
    updateObjectSelection baseExt emptyTank = emptyTank :=
  no_avatar_noops Quat.id baseExt 0.1 emptyTank rfl

/-! ## C3: dash rejection and cooldown -/

/-- A sequence of open-water frames, each with its own external inputs
and elapsed time. -/
def owFrames : List (FrameExt × ℝ) → TankState → TankState
  | [], st => st
  | (ext, δ) :: rest, st => owFrames rest (owFrame ext δ st)

theorem performDash_rejects (q : Quat) (st : TankState) (h : st.dashCooldown > 0) :
    performDash q st = st := by
  unfold performDash
  cases st.frog
  · rfl
  · simp [h]

/-- Over one open-water frame the cooldown, when positive, decreases by
exactly the elapsed time, and the avatar stays loaded. -/
theorem owFrame_dashCooldown (ext : FrameExt) (δ : ℝ) (st : TankState) (f : Frog)
    (hf : st.frog = some f) (hcd : 0 < st.dashCooldown) :
    (∃ f', (owFrame ext δ st).frog = some f') ∧
    (owFrame ext δ st).dashCooldown = st.dashCooldown - δ := by
  unfold owFrame
  obtain ⟨f1, h1⟩ := updateMovement_frog_isSome ext.cameraQuat δ st f hf
  have hd1 : (updateMovement ext.cameraQuat δ st).dashCooldown = st.dashCooldown - δ := by
    rw [updateMovement_dashCooldown ext.cameraQuat δ st f hf, if_pos hcd]
  obtain ⟨r2, h2⟩ := updateAutopilot_frog ext δ _ f1 h1
  have hd2 := updateAutopilot_dashCooldown ext δ (updateMovement ext.cameraQuat δ st)
  obtain ⟨y3, h3, h3p, h3b⟩ := updateFrogAnimation_frog δ _ ⟨f1.position, r2⟩ h2
  have hd3 := updateFrogAnimation_dashCooldown δ (updateAutopilot ext δ (updateMovement ext.cameraQuat δ st))
  refine ⟨⟨⟨⟨f1.position.x, y3, f1.position.z⟩, r2⟩, ?_⟩, ?_⟩
  · rw [checkCollisions_frog, updateEnvironment_frog, updateObjectSelection_frog,
        updateCameraPosition_frog, updateAdditionalFrogs_frog, h3]
  · rw [checkCollisions_dashCooldown, updateEnvironment_dashCooldown,
        updateObjectSelection_dashCooldown, updateCameraPosition_dashCooldown,
        updateAdditionalFrogs_dashCooldown, hd3, hd2, hd1]

/-- Over a frame sequence with nonnegative elapsed times summing to less
than the positive cooldown, the cooldown at the end is the initial one
minus the total elapsed time (and the avatar stays loaded). -/
theorem owFrames_dashCooldown (l : List (FrameExt × ℝ)) :
    ∀ st : TankState, ∀ f : Frog, st.frog = some f → 0 < st.dashCooldown →
    (∀ p ∈ l, 0 ≤ p.2) → (l.map Prod.snd).sum < st.dashCooldown →
    (∃ f', (owFrames l st).frog = some f') ∧
    (owFrames l st).dashCooldown = st.dashCooldown - (l.map Prod.snd).sum := by
  induction l with
  | nil => intro st f hf hcd _ _; exact ⟨⟨f, hf⟩, by simp [owFrames]⟩
  | cons p rest ih =>
    intro st f hf hcd hpos hsum
    obtain ⟨pe, pδ⟩ := p
    simp only [List.map_cons, List.sum_cons] at hsum
    have hδ : 0 ≤ pδ := hpos (pe, pδ) (by simp)
    have hrest : ∀ q ∈ rest, 0 ≤ q.2 := fun q hq => hpos q (by simp [hq])
    have hrsum : 0 ≤ (rest.map Prod.snd).sum := by
      apply List.sum_nonneg
      intro x hx
      obtain ⟨q, hq, rfl⟩ := List.mem_map.mp hx
      exact hrest q hq
    obtain ⟨⟨f1, hf1⟩, hcd1⟩ := owFrame_dashCooldown pe pδ st f hf hcd
    have hcd1pos : 0 < (owFrame pe pδ st).dashCooldown := by rw [hcd1]; linarith
    have hsum1 : (rest.map Prod.snd).sum < (owFrame pe pδ st).dashCooldown := by
      rw [hcd1]; linarith
    obtain ⟨hex, heq⟩ := ih (owFrame pe pδ st) f1 hf1 hcd1pos hrest hsum1
    refine ⟨hex, ?_⟩
    show (owFrames rest (owFrame pe pδ st)).dashCooldown = _
    rw [heq, hcd1]
    simp only [List.map_cons, List.sum_cons]
    ring

/-- C3: a dash while the cooldown is positive changes nothing; a dash
with the avatar loaded and the cooldown spent adds exactly the impulse
`dashForce • dashDirection` to the velocity and sets the cooldown to
0.5 s; hence a second dash request issued after frames totalling less
than 0.5 s of elapsed time is a no-op, so two requests within 0.5 s
produce exactly one velocity impulse. -/
theorem dash_cooldown_claim (q q2 : Quat) (st : TankState) (f : Frog)
    (l : List (FrameExt × ℝ))
    (hf : st.frog = some f) (hcd : st.dashCooldown ≤ 0)
    (hpos : ∀ p ∈ l, 0 ≤ p.2) (hsum : (l.map Prod.snd).sum < 0.5) :
    (performDash q st).velocity = st.velocity + st.dashForce • dashDirection q st.movement f ∧
    (performDash q st).dashCooldown = 0.5 ∧
    performDash q2 (owFrames l (performDash q st)) = owFrames l (performDash q st) ∧
    (∀ st2 : TankState, st2.dashCooldown > 0 → performDash q2 st2 = st2) := by
  have hno : ¬ st.dashCooldown > 0 := not_lt.mpr hcd
  have hpd : performDash q st =
      { st with velocity := st.velocity + st.dashForce • dashDirection q st.movement f,
                dashCooldown := 0.5 } := by
    unfold performDash; rw [hf]; simp [hno]
  refine ⟨by rw [hpd], by rw [hpd], ?_, fun st2 h2 => performDash_rejects q2 st2 h2⟩
  have hf' : (performDash q st).frog = some f := by rw [hpd]; exact hf
  have hcd' : (performDash q st).dashCooldown = 0.5 := by rw [hpd]
  obtain ⟨hex, heq⟩ := owFrames_dashCooldown l (performDash q st) f hf'
    (by rw [hcd']; norm_num) hpos (by rw [hcd']; exact hsum)
  apply performDash_rejects
  rw [heq, hcd']
  have : 0 ≤ (l.map Prod.snd).sum := by
    apply List.sum_nonneg
    intro x hx
    obtain ⟨p, hp, rfl⟩ := List.mem_map.mp hx
    exact hpos p hp
  linarith

/-- A loaded, dash-ready avatar state for the C3 witness. -/
def dashTank : TankState :=
  { emptyTank with frog := some ⟨⟨0, 0, 0⟩, 0⟩ }

/-- Witness for C3: dash, one 0.1 s frame, dash again. -/
theorem dash_cooldown_claim_witness :
    (performDash Quat.id dashTank).velocity =
      dashTank.velocity + dashTank.dashForce • dashDirection Quat.id dashTank.movement ⟨⟨0, 0, 0⟩, 0⟩ ∧
    (performDash Quat.id dashTank).dashCooldown = 0.5 ∧
    performDash Quat.id (owFrames [(baseExt, 0.1)] (performDash Quat.id dashTank)) =
      owFrames [(baseExt, 0.1)] (performDash Quat.id dashTank) ∧
    (∀ st2 : TankState, st2.dashCooldown > 0 → performDash Quat.id st2 = st2) := by
  exact dash_cooldown_claim Quat.id Quat.id dashTank ⟨⟨0, 0, 0⟩, 0⟩ [(baseExt, 0.1)] rfl
    (by norm_num [dashTank, emptyTank])
    (by intro p hp; simp only [List.mem_singleton] at hp; rw [hp]; norm_num)
    (by norm_num)

/-! ## C5: side-scroller jump trigger -/

/-- C5: in the side-scroller input step a jump fires exactly on a rising
edge of the jump intent (not while held from a previous trigger), only
without the down intent, and only while `jumpCount < maxJumps`; a fired
jump sets the vertical velocity to the fixed impulse and increments
`jumpCount`; with the jump budget exhausted the attempt leaves the
velocity exactly as the same tick without the jump intent (and the
vertical and depth components unchanged); `maxJumps` is 2. -/
theorem ssJump_claim (input : SSInput) (p : SSPlayer) :
    ((ssInputJumpStep input p).jumpCount = p.jumpCount + 1 ↔
      (input.jump = true ∧ p.jumpPressed = false ∧ input.down = false ∧
       p.jumpCount < p.maxJumps)) ∧
    ((input.jump = true ∧ p.jumpPressed = false ∧ input.down = false ∧
      p.jumpCount < p.maxJumps) →
      (ssInputJumpStep input p).velocity.y = ssCONFIG.jumpForce ∧
      (ssInputJumpStep input p).isGrounded = false ∧
      (ssInputJumpStep input p).jumpPressed = true) ∧
    ((p.jumpPressed = true ∧ input.jump = true) →
      (ssInputJumpStep input p).velocity.y = p.velocity.y ∧
      (ssInputJumpStep input p).jumpCount = p.jumpCount) ∧
    (p.maxJumps ≤ p.jumpCount →
      (ssInputJumpStep input p).velocity =
        (ssInputJumpStep { input with jump := false } p).velocity ∧
      (ssInputJumpStep input p).velocity.y = p.velocity.y ∧
      (ssInputJumpStep input p).velocity.z = p.velocity.z ∧
      (ssInputJumpStep input p).jumpCount = p.jumpCount) ∧
    (input.down = true →
      (ssInputJumpStep input p).velocity.y = p.velocity.y ∧
      (ssInputJumpStep input p).jumpCount = p.jumpCount) ∧
    enterSideScrollerPlayer.maxJumps = 2 := by
  cases hj : input.jump <;> cases hp : p.jumpPressed <;> cases hd : input.down <;>
    by_cases hc : p.jumpCount < p.maxJumps <;>
    simp [ssInputJumpStep, hj, hp, hd, hc, enterSideScrollerPlayer]

/-! ## C7: sub-agent steering forces -/

/-- C7: on a sub-agent tick with a target and `isMoving`, if the agent is
below `minSeparation` from the avatar or any other sub-agent the
acceleration is exactly `1.5` times the separation force with seeking
suppressed; otherwise it is `1.0` times the seek force
`clamp(normalize(target - position) * speed - velocity, maxForce)` plus
`0.8` times the separation force; and the tick integrates exactly this
acceleration. -/
theorem flocking_forces_claim (fp : Vec3) (objs : List WObj) (others : List SubAgent)
    (δ : ℝ) (a : SubAgent) (ti : Nat) (tobj : WObj)
    (htarget : a.target = some ti) (hobj : objs.get? ti = some tobj)
    (hmoving : a.isMoving = true) :
    (checkMinimumSeparation fp others a →
       frogTickAcceleration fp others a tobj.position =
         (1.5 : ℝ) • calculateSeparation fp others a) ∧
    (¬ checkMinimumSeparation fp others a →
       frogTickAcceleration fp others a tobj.position =
         (1.0 : ℝ) • calculateSeek a tobj.position +
           (0.8 : ℝ) • calculateSeparation fp others a) ∧
    (checkMinimumSeparation fp others a ↔
       a.position.distanceTo fp < a.minSeparation ∨
       ∃ o ∈ others, a.position.distanceTo o.position < a.minSeparation) ∧
    (calculateSeek a tobj.position =
       (a.speed • (tobj.position - a.position).normalize - a.velocity).clampLength
         a.maxForce) ∧
    ((updateFrogMovement fp objs others δ a).acceleration =
       δ • frogTickAcceleration fp others a tobj.position) := by
  refine ⟨?_, ?_, Iff.rfl, rfl, ?_⟩
  · intro h; unfold frogTickAcceleration; rw [if_pos h]
  · intro h; unfold frogTickAcceleration; rw [if_neg h]
  · unfold updateFrogMovement
    simp only [htarget, hobj]
    repeat' split
    all_goals rfl

/-- A concrete moving sub-agent for the C7 witness. -/
def flockAgent : SubAgent :=
  { position := ⟨0, 0, 0⟩, velocity := 0, acceleration := 0, target := some 0,
    speed := 3.0, maxForce := 2.0, separationRadius := 4.0, minSeparation := 1.5,
    isMoving := true, rotY := 0 }

/-- A concrete target object for the C7 witness. -/
def flockObj : WObj := { position := ⟨0, 0, 10⟩, rotY := 0, otype := OType.folder }

/-- Witness for C7 at a concrete agent, target and avatar position. -/
theorem flocking_forces_claim_witness :
    (checkMinimumSeparation ⟨10, 0, 0⟩ [] flockAgent →
       frogTickAcceleration ⟨10, 0, 0⟩ [] flockAgent flockObj.position =
         (1.5 : ℝ) • calculateSeparation ⟨10, 0, 0⟩ [] flockAgent) ∧
    (¬ checkMinimumSeparation ⟨10, 0, 0⟩ [] flockAgent →
       frogTickAcceleration ⟨10, 0, 0⟩ [] flockAgent flockObj.position =
         (1.0 : ℝ) • calculateSeek flockAgent flockObj.position +
           (0.8 : ℝ) • calculateSeparation ⟨10, 0, 0⟩ [] flockAgent) ∧
    (checkMinimumSeparation ⟨10, 0, 0⟩ [] flockAgent ↔
       flockAgent.position.distanceTo ⟨10, 0, 0⟩ < flockAgent.minSeparation ∨
       ∃ o ∈ ([] : List SubAgent),
         flockAgent.position.distanceTo o.position < flockAgent.minSeparation) ∧
    (calculateSeek flockAgent flockObj.position =
       (flockAgent.speed • (flockObj.position - flockAgent.position).normalize -
          flockAgent.velocity).clampLength flockAgent.maxForce) ∧
    ((updateFrogMovement ⟨10, 0, 0⟩ [flockObj] [] 0.1 flockAgent).acceleration =
       (0.1 : ℝ) • frogTickAcceleration ⟨10, 0, 0⟩ [] flockAgent flockObj.position) :=
  flocking_forces_claim ⟨10, 0, 0⟩ [flockObj] [] 0.1 flockAgent 0 flockObj rfl rfl rfl

/-! ## C2: tank-bound clamping -/

theorem updateAutopilot_frogPosition (ext : FrameExt) (δ : ℝ) (st : TankState) :
    (updateAutopilot ext δ st).frogPosition = st.frogPosition := by
  unfold updateAutopilot; (try dsimp only); repeat' split
  all_goals rfl

/-- After the kinematics integrator the avatar position lies inside the
axis-aligned tank bounds. -/
theorem updateMovement_position_bounds (q : Quat) (δ : ℝ) (st : TankState) (f : Frog)
    (hf : st.frog = some f) (hw : 0 ≤ st.config.tank.width)
    (hfc : st.config.tank.floorY ≤ st.config.tank.ceilingY) :
    ∃ f', (updateMovement q δ st).frog = some f' ∧
      (updateMovement q δ st).frogPosition = f'.position ∧
      -st.config.tank.width ≤ f'.position.x ∧ f'.position.x ≤ st.config.tank.width ∧
      -st.config.tank.width ≤ f'.position.z ∧ f'.position.z ≤ st.config.tank.width ∧
      st.config.tank.floorY ≤ f'.position.y ∧ f'.position.y ≤ st.config.tank.ceilingY := by
  unfold updateMovement
  rw [hf]; (try dsimp only)
  refine ⟨_, rfl, rfl, ?_, ?_, ?_, ?_, ?_, ?_⟩
  · exact le_max_left _ _
  · exact max_le (by linarith) (min_le_left _ _)
  · exact le_max_left _ _
  · exact max_le (by linarith) (min_le_left _ _)
  · exact le_max_left _ _
  · exact max_le (by linarith) (min_le_left _ _)

/-- C2 (amended): at the end of every open-water frame the avatar's
horizontal coordinates are inside `[-width, width]` exactly, and the
vertical coordinate is inside `[floorY, ceilingY]` widened by the
animation-bob slack `0.05 * delta` that `updateFrogAnimation` adds after
the clamp. -/
theorem boundary_clamp_amended (ext : FrameExt) (δ : ℝ) (st : TankState) (f : Frog)
    (hf : st.frog = some f) (hδ : 0 ≤ δ) (hw : 0 ≤ st.config.tank.width)
    (hfc : st.config.tank.floorY ≤ st.config.tank.ceilingY) :
    ∃ f', (owFrame ext δ st).frog = some f' ∧
      (owFrame ext δ st).frogPosition = f'.position ∧
      -st.config.tank.width ≤ f'.position.x ∧ f'.position.x ≤ st.config.tank.width ∧
      -st.config.tank.width ≤ f'.position.z ∧ f'.position.z ≤ st.config.tank.width ∧
      st.config.tank.floorY - 0.05 * δ ≤ f'.position.y ∧
      f'.position.y ≤ st.config.tank.ceilingY + 0.05 * δ := by
  obtain ⟨f1, h1, h1p, h1x, h1x2, h1z, h1z2, h1y, h1y2⟩ :=
    updateMovement_position_bounds ext.cameraQuat δ st f hf hw hfc
  set st1 := updateMovement ext.cameraQuat δ st with hst1
  obtain ⟨r2, h2⟩ := updateAutopilot_frog ext δ st1 f1 h1
  set st2 := updateAutopilot ext δ st1 with hst2
  obtain ⟨y3, h3, h3p, h3b⟩ := updateFrogAnimation_frog δ st2 ⟨f1.position, r2⟩ h2
  set st3 := updateFrogAnimation δ st2 with hst3
  have hcfg2 : st2.config = st.config := by
    rw [hst2, updateAutopilot_config, hst1, updateMovement_config]
  have hy3 : |y3 - f1.position.y| ≤ 0.05 * δ := by
    have := h3b
    rwa [abs_of_nonneg hδ] at this
  have hyabs := abs_le.mp hy3
  refine ⟨⟨⟨f1.position.x, y3, f1.position.z⟩, r2⟩, ?_, ?_, h1x, h1x2, h1z, h1z2, ?_, ?_⟩
  · show (checkCollisions (updateEnvironment (updateObjectSelection ext
      (updateCameraPosition (updateAdditionalFrogs δ st3))))).frog = _
    rw [checkCollisions_frog, updateEnvironment_frog, updateObjectSelection_frog,
        updateCameraPosition_frog, updateAdditionalFrogs_frog, h3]
  · show (checkCollisions (updateEnvironment (updateObjectSelection ext
      (updateCameraPosition (updateAdditionalFrogs δ st3))))).frogPosition = _
    rw [checkCollisions_frogPosition, updateEnvironment_frogPosition,
        updateObjectSelection_frogPosition, updateCameraPosition_frogPosition,
        updateAdditionalFrogs_frogPosition, h3p]
  · dsimp only
    linarith [hyabs.1]
  · dsimp only
    linarith [hyabs.2]

/-! ## Concrete evaluation helpers -/

theorem sqrt_val {a b : ℝ} (hb : 0 ≤ b) (h : b ^ 2 = a) : Real.sqrt a = b := by
  subst h; exact Real.sqrt_sq hb

theorem Vec3.length_mk (a b c : ℝ) :
    Vec3.length ⟨a, b, c⟩ = Real.sqrt (a * a + b * b + c * c) := rfl

@[simp] theorem Vec3.zero_x : (0 : Vec3).x = 0 := rfl

@[simp] theorem Vec3.zero_y : (0 : Vec3).y = 0 := rfl

@[simp] theorem Vec3.zero_z : (0 : Vec3).z = 0 := rfl

@[simp] theorem Vec3.length_zero : Vec3.length 0 = 0 := by
  rw [zero_def, length_mk]
  simp

@[simp] theorem Vec3.normalize_zero : Vec3.normalize 0 = 0 := by
  unfold normalize
  rw [Vec3.length_zero]
  simp

theorem updateAdditionalFrogs_not_multi (δ : ℝ) (st : TankState)
    (h : st.multiFrogMode = false) : updateAdditionalFrogs δ st = st := by
  unfold updateAdditionalFrogs; rw [h]; simp

/-! ## C2 counterexample: the animation bob escapes the ceiling -/

/-- An avatar resting at the ceiling, swimming up, with the swim phase
about to peak. -/
def ceilTank : TankState :=
  { emptyTank with
      frog := some ⟨⟨0, 15, 0⟩, 0⟩
      frogPosition := ⟨0, 15, 0⟩
      movement := { idleMovement with up := true }
      swimTime := Real.pi / 16 - 1 / 10
      autopilot := some (autopilotInit 0) }

theorem ceilTank_movement_step :
    updateMovement Quat.id (1 / 10) ceilTank = { ceilTank with velocity := ⟨0, 3 / 5, 0⟩ } := by
  have hlen : Vec3.length ⟨0, 3 / 5, 0⟩ = 3 / 5 := by
    rw [Vec3.length_mk]
    exact sqrt_val (by norm_num) (by norm_num)
  have hnorm : Vec3.normalize ⟨0, 3 / 5, 0⟩ = ⟨0, 1, 0⟩ := by
    unfold Vec3.normalize
    rw [hlen, if_neg (by norm_num)]
    rw [Vec3.smul_def]
    norm_num
  unfold updateMovement
  simp only [ceilTank, emptyTank, idleMovement, defaultConfig, Movement.hasHorizontal]
  norm_num
  intro
  rw [hnorm]
  have hz : atan2 (0 : ℝ) 0 = 0 := by unfold atan2; norm_num
  show wrapPi (atan2 0 0) = 0
  rw [hz]
  unfold wrapPi
  rw [if_neg]
  simpa using Real.pi_pos.le

theorem owFrame_config (ext : FrameExt) (δ : ℝ) (st : TankState) :
    (owFrame ext δ st).config = st.config := by
  unfold owFrame
  rw [checkCollisions_config, updateEnvironment_config, updateObjectSelection_config,
      updateCameraPosition_config, updateAdditionalFrogs_config, updateFrogAnimation_config,
      updateAutopilot_config, updateMovement_config]

theorem ceilTank_animation_step :
    updateFrogAnimation (1 / 10) { ceilTank with velocity := ⟨0, 3 / 5, 0⟩ } =
      { ceilTank with
          velocity := ⟨0, 3 / 5, 0⟩
          frog := some ⟨⟨0, 3001 / 200, 0⟩, 0⟩
          frogPosition := ⟨0, 3001 / 200, 0⟩
          swimTime := Real.pi / 16 } := by
  unfold updateFrogAnimation
  simp only [ceilTank, emptyTank, idleMovement, defaultConfig, Movement.anyFlag,
    Bool.false_or, Bool.or_false, Bool.true_or, Bool.or_true, if_true]
  rw [show (Real.pi / 16 - 1 / 10 + 1 / 10) * (4 * 2) = Real.pi / 2 by ring]
  rw [Real.sin_pi_div_two]
  norm_num

/-- C2 counterexample: from a legal state resting exactly at the ceiling
with the up intent held and the swim phase at its peak, one open-water
frame ends with the avatar's y coordinate strictly above `ceilingY` —
the animation bob is applied after the clamp. -/
theorem boundary_clamp_counterexample :
    ceilTank.config.tank.ceilingY = 15 ∧
    ceilTank.frogPosition.y ≤ ceilTank.config.tank.ceilingY ∧
    (owFrame baseExt (1 / 10) ceilTank).config.tank.ceilingY = 15 ∧
    (owFrame baseExt (1 / 10) ceilTank).frogPosition.y > 15 := by
  have hauto : updateAutopilot baseExt (1 / 10) { ceilTank with velocity := ⟨0, 3 / 5, 0⟩ } =
      { ceilTank with velocity := ⟨0, 3 / 5, 0⟩ } :=
    updateAutopilot_noop baseExt (1 / 10) _ (Or.inr rfl)
  refine ⟨?_, by norm_num [ceilTank, emptyTank, defaultConfig], ?_, ?_⟩
  · norm_num [ceilTank, emptyTank, defaultConfig]
  · rw [owFrame_config]
    norm_num [ceilTank, emptyTank, defaultConfig]
  · unfold owFrame
    rw [checkCollisions_frogPosition, updateEnvironment_frogPosition,
        updateObjectSelection_frogPosition, updateCameraPosition_frogPosition,
        updateAdditionalFrogs_frogPosition,
        show baseExt.cameraQuat = Quat.id from rfl, ceilTank_movement_step, hauto,
        ceilTank_animation_step]
    norm_num

/-- Witness for the amended C2 theorem at a concrete loaded state. -/
theorem boundary_clamp_amended_witness :
    ∃ f', (owFrame baseExt (1 / 10) ceilTank).frog = some f' ∧
      (owFrame baseExt (1 / 10) ceilTank).frogPosition = f'.position ∧
      -ceilTank.config.tank.width ≤ f'.position.x ∧
      f'.position.x ≤ ceilTank.config.tank.width ∧
      -ceilTank.config.tank.width ≤ f'.position.z ∧
      f'.position.z ≤ ceilTank.config.tank.width ∧
      ceilTank.config.tank.floorY - 0.05 * (1 / 10) ≤ f'.position.y ∧
      f'.position.y ≤ ceilTank.config.tank.ceilingY + 0.05 * (1 / 10) :=
  boundary_clamp_amended baseExt (1 / 10) ceilTank ⟨⟨0, 15, 0⟩, 0⟩ rfl (by norm_num)
    (by norm_num [ceilTank, emptyTank, defaultConfig])
    (by norm_num [ceilTank, emptyTank, defaultConfig])

/-! ## C1: the separation invariant -/

/-- The pairwise separation invariant: every two distinct sub-agents are
at least `m` apart. -/
def agentsPairOK (m : ℝ) (l : List SubAgent) : Prop :=
  l.Pairwise (fun a b => m ≤ a.position.distanceTo b.position)

theorem updateFrogMovement_minSeparation (fp : Vec3) (objs : List WObj)
    (others : List SubAgent) (δ : ℝ) (a : SubAgent) :
    (updateFrogMovement fp objs others δ a).minSeparation = a.minSeparation := by
  unfold updateFrogMovement; (try dsimp only); repeat' split
  all_goals rfl

/-- The overlap guard: a sub-agent tick either keeps the agent's position
or commits a position at least `minSeparation` away from the avatar and
from every other agent. -/
theorem updateFrogMovement_position (fp : Vec3) (objs : List WObj)
    (others : List SubAgent) (δ : ℝ) (a : SubAgent) :
    (updateFrogMovement fp objs others δ a).position = a.position ∨
    (a.minSeparation ≤ (updateFrogMovement fp objs others δ a).position.distanceTo fp ∧
     ∀ o ∈ others,
       a.minSeparation ≤ (updateFrogMovement fp objs others δ a).position.distanceTo o.position) := by
  unfold updateFrogMovement
  cases a.target with
  | none => exact Or.inl rfl
  | some ti =>
    dsimp only
    cases objs.get? ti with
    | none => exact Or.inl rfl
    | some tobj =>
      dsimp only
      by_cases hov : wouldCauseOverlap fp others a
          (a.position + δ • frogTickVelocity fp others a tobj.position δ)
      · simp only [if_neg (not_not_intro hov)]
        split
        · exact Or.inl rfl
        · exact Or.inl rfl
      · simp only [if_pos hov]
        rw [wouldCauseOverlap] at hov
        push_neg at hov
        split
        · exact Or.inr ⟨hov.1, hov.2⟩
        · exact Or.inr ⟨hov.1, hov.2⟩

theorem pairOK_extract {m : ℝ} {done rest : List SubAgent} {a : SubAgent}
    (h : agentsPairOK m (done ++ a :: rest)) :
    (∀ o ∈ done ++ rest, m ≤ a.position.distanceTo o.position) ∧
    agentsPairOK m (done ++ rest) := by
  unfold agentsPairOK at h ⊢
  rw [List.pairwise_append] at h
  obtain ⟨hd, hcr, hcross⟩ := h
  rw [List.pairwise_cons] at hcr
  obtain ⟨har, hr⟩ := hcr
  constructor
  · intro o ho
    rcases List.mem_append.mp ho with ho | ho
    · rw [Vec3.distanceTo_comm]
      exact hcross o ho a (by simp)
    · exact har o ho
  · rw [List.pairwise_append]
    exact ⟨hd, hr, fun x hx y hy => hcross x hx y (by simp [hy])⟩

theorem pairOK_insert {m : ℝ} {done rest : List SubAgent} {b : SubAgent}
    (h : agentsPairOK m (done ++ rest))
    (hbo : ∀ o ∈ done ++ rest, m ≤ b.position.distanceTo o.position) :
    agentsPairOK m (done ++ b :: rest) := by
  unfold agentsPairOK at h ⊢
  rw [List.pairwise_append] at h
  obtain ⟨hd, hr, hcross⟩ := h
  rw [List.pairwise_append, List.pairwise_cons]
  refine ⟨hd, ⟨?_, hr⟩, ?_⟩
  · intro r hr2
    exact hbo r (List.mem_append.mpr (Or.inr hr2))
  · intro d hd2 y hy
    rcases List.mem_cons.mp hy with rfl | hy
    · rw [Vec3.distanceTo_comm]
      exact hbo d (List.mem_append.mpr (Or.inl hd2))
    · exact hcross d hd2 y hy

/-- One pass of the sub-agent loop preserves the pairwise separation
invariant, whatever the avatar position: every position commit is
guarded by `wouldCauseOverlap` against all other agents, and a rejected
commit leaves the position unchanged. -/
theorem agentsGo_pairOK (fp : Vec3) (objs : List WObj) (δ m : ℝ) :
    ∀ todo done : List SubAgent,
      (∀ a ∈ done ++ todo, a.minSeparation = m) → agentsPairOK m (done ++ todo) →
      agentsPairOK m (agentsGo fp objs δ done todo) ∧
      (∀ a ∈ agentsGo fp objs δ done todo, a.minSeparation = m) := by
  intro todo
  induction todo with
  | nil =>
    intro done hm hsep
    rw [agentsGo]
    rw [List.append_nil] at hm hsep
    exact ⟨hsep, hm⟩
  | cons a rest ih =>
    intro done hm hsep
    rw [agentsGo]
    set a' := if a.target.isSome && a.isMoving
              then updateFrogMovement fp objs (done ++ rest) δ a
              else a with ha'
    have hm' : a'.minSeparation = m := by
      rw [ha']
      split
      · rw [updateFrogMovement_minSeparation]
        exact hm a (by simp)
      · exact hm a (by simp)
    have hpos : a'.position = a.position ∨
        (∀ o ∈ done ++ rest, m ≤ a'.position.distanceTo o.position) := by
      rw [ha']
      split
      · have hup := updateFrogMovement_position fp objs (done ++ rest) δ a
        rw [hm a (by simp)] at hup
        rcases hup with hup | hup
        · exact Or.inl hup
        · exact Or.inr hup.2
      · exact Or.inl rfl
    obtain ⟨hao, hrest⟩ := pairOK_extract hsep
    have hsep' : agentsPairOK m (done ++ a' :: rest) := by
      rcases hpos with hpos | hpos
      · exact pairOK_insert hrest (by intro o ho; rw [hpos]; exact hao o ho)
      · exact pairOK_insert hrest hpos
    have hseq : (done ++ [a']) ++ rest = done ++ a' :: rest := by
      rw [List.append_assoc, List.singleton_append]
    have hms2 : ∀ x ∈ (done ++ [a']) ++ rest, x.minSeparation = m := by
      rw [hseq]
      intro x hx
      rcases List.mem_append.mp hx with hx | hx
      · exact hm x (List.mem_append.mpr (Or.inl hx))
      · rcases List.mem_cons.mp hx with rfl | hx
        · exact hm'
        · exact hm x (by simp [hx])
    have hsep2 : agentsPairOK m ((done ++ [a']) ++ rest) := by rw [hseq]; exact hsep'
    exact ih (done ++ [a']) hms2 hsep2

/-- Two concrete agents far apart for the C1 witness. -/
def farAgentA : SubAgent :=
  { position := ⟨0, 0, 0⟩, velocity := 0, acceleration := 0, target := none,
    speed := 3.0, maxForce := 2.0, separationRadius := 4.0, minSeparation := 1.5,
    isMoving := false, rotY := 0 }

/-- Second concrete agent for the C1 witness. -/
def farAgentB : SubAgent :=
  { farAgentA with position := ⟨10, 0, 0⟩ }

theorem updateCameraPosition_allObjects (st : TankState) :
    (updateCameraPosition st).allObjects = st.allObjects := by
  unfold updateCameraPosition; (try dsimp only); repeat' split
  all_goals rfl

theorem updateCameraPosition_selectedObject (st : TankState) :
    (updateCameraPosition st).selectedObject = st.selectedObject := by
  unfold updateCameraPosition; (try dsimp only); repeat' split
  all_goals rfl

theorem updateCameraPosition_otherFrogs (st : TankState) :
    (updateCameraPosition st).otherFrogs = st.otherFrogs := by
  unfold updateCameraPosition; (try dsimp only); repeat' split
  all_goals rfl

theorem updateEnvironment_otherFrogs (st : TankState) :
    (updateEnvironment st).otherFrogs = st.otherFrogs := by
  unfold updateEnvironment; rfl

theorem checkCollisions_otherFrogs (st : TankState) :
    (checkCollisions st).otherFrogs = st.otherFrogs := by
  unfold checkCollisions; (try dsimp only); repeat' split
  all_goals rfl

/-- With no world objects and nothing focused, the selection tick leaves
the state unchanged. -/
theorem updateObjectSelection_empty (ext : FrameExt) (st : TankState)
    (hobj : st.allObjects = []) (hsel : st.selectedObject = none) :
    updateObjectSelection ext st = st := by
  unfold updateObjectSelection
  cases hf : st.frog with
  | none => rfl
  | some frog =>
    dsimp only
    have hb : bestObjectOf ext st frog = none := by
      unfold bestObjectOf
      rw [hobj]
      rfl
    rw [hb, hsel]
    simp

/-- The stationary sub-agent of the C1 counterexample, 1.8624 units in
front of the avatar. -/
def glideAgent : SubAgent := { farAgentA with position := ⟨0, 0, 1164 / 625⟩ }

/-- Flocking active, avatar at the origin gliding at 30 units/s toward
the stationary agent. -/
def glideTank : TankState :=
  { emptyTank with
      frog := some ⟨⟨0, 0, 0⟩, 0⟩
      velocity := ⟨0, 0, 30⟩
      autopilot := some (autopilotInit 0)
      multiFrogMode := true
      otherFrogs := [glideAgent] }

/-- The glide state one movement step later. -/
def glideTank1 : TankState :=
  { glideTank with
      frog := some ⟨⟨0, 0, 1164 / 625⟩, 0⟩
      frogPosition := ⟨0, 0, 1164 / 625⟩
      velocity := ⟨0, 0, 2328 / 125⟩ }

theorem glideTank_movement_step :
    updateMovement Quat.id (1 / 10) glideTank = glideTank1 := by
  unfold glideTank1
  have hlen : Vec3.length ⟨0, 0, 2328 / 125⟩ = 2328 / 125 := by
    rw [Vec3.length_mk]
    exact sqrt_val (by norm_num) (by norm_num)
  have hnorm : Vec3.normalize ⟨0, 0, 2328 / 125⟩ = ⟨0, 0, 1⟩ := by
    unfold Vec3.normalize
    rw [hlen, if_neg (by norm_num)]
    rw [Vec3.smul_def]
    norm_num
  unfold updateMovement
  simp only [glideTank, emptyTank, idleMovement, defaultConfig, Movement.hasHorizontal]
  norm_num
  intro
  rw [hnorm]
  have hz : atan2 (0 : ℝ) 1 = 0 := by
    unfold atan2
    rw [if_pos one_pos]
    simp [Real.arctan_zero]
  show wrapPi (atan2 0 1) = 0
  rw [hz]
  unfold wrapPi
  rw [if_neg]
  simpa using Real.pi_pos.le

theorem glideTank_animation_step :
    updateFrogAnimation (1 / 10) glideTank1 = glideTank1 := by
  unfold updateFrogAnimation
  simp only [glideTank1, glideTank, emptyTank, idleMovement, defaultConfig, Movement.anyFlag,
    Bool.false_or, Bool.or_false]
  norm_num

theorem glideTank_agents_step :
    updateAdditionalFrogs (1 / 10) glideTank1 = glideTank1 := by
  unfold updateAdditionalFrogs
  rw [if_pos]
  · have hg : agentsGo glideTank1.frogPosition glideTank1.allObjects (1 / 10) []
        glideTank1.otherFrogs = [glideAgent] := by
      show agentsGo glideTank1.frogPosition glideTank1.allObjects (1 / 10) [] [glideAgent] =
        [glideAgent]
      simp [agentsGo, glideAgent, farAgentA]
    rw [hg]
    rfl
  · rfl

/-- C1 counterexample: with flocking active and all distances initially
at least `minSeparation = 1.5`, one open-water frame ends with the
avatar exactly on top of a sub-agent (distance 0) — the avatar's own
movement is not constrained by the overlap guard, so the claimed
invariant fails for the sub-agent/avatar pairs. -/
theorem separation_counterexample :
    glideTank.multiFrogMode = true ∧
    glideAgent.minSeparation = 1.5 ∧
    1.5 ≤ glideTank.frogPosition.distanceTo glideAgent.position ∧
    (owFrame baseExt (1 / 10) glideTank).otherFrogs = [glideAgent] ∧
    (owFrame baseExt (1 / 10) glideTank).frogPosition.distanceTo glideAgent.position = 0 := by
  have hauto : updateAutopilot baseExt (1 / 10) glideTank1 = glideTank1 :=
    updateAutopilot_noop _ _ _ (Or.inr rfl)
  have hselempty : updateObjectSelection baseExt (updateCameraPosition glideTank1) =
      updateCameraPosition glideTank1 :=
    updateObjectSelection_empty _ _
      (by rw [updateCameraPosition_allObjects]; rfl)
      (by rw [updateCameraPosition_selectedObject]; rfl)
  have hchain : owFrame baseExt (1 / 10) glideTank =
      checkCollisions (updateEnvironment (updateObjectSelection baseExt
        (updateCameraPosition glideTank1))) := by
    unfold owFrame
    rw [show baseExt.cameraQuat = Quat.id from rfl, glideTank_movement_step, hauto,
        glideTank_animation_step, glideTank_agents_step]
  refine ⟨rfl, rfl, ?_, ?_, ?_⟩
  · apply Vec3.le_distanceTo_of_sq_le (by norm_num)
    show (1.5 : ℝ) ^ 2 ≤ Vec3.lengthSq (Vec3.sub ⟨0, 0, 0⟩ ⟨0, 0, 1164 / 625⟩)
    norm_num [Vec3.lengthSq, Vec3.sub]
  · rw [hchain, checkCollisions_otherFrogs, updateEnvironment_otherFrogs, hselempty,
        updateCameraPosition_otherFrogs]
    rfl
  · rw [hchain, checkCollisions_frogPosition, updateEnvironment_frogPosition, hselempty,
        updateCameraPosition_frogPosition]
    exact Vec3.distanceTo_self _

/-! ## C4: the selection engine picks the first maximal candidate -/

/-- The best-candidate fold of `updateObjectSelection`, abstracted over
the list of gated (index, score) pairs in iteration order. -/
def selRun : List (Nat × ℝ) → Option (Nat × ℝ) → Option (Nat × ℝ)
  | [], b => b
  | p :: rest, b =>
    match b with
    | none => selRun rest (some p)
    | some q => if p.2 > q.2 then selRun rest (some p) else selRun rest (some q)

/-- The gated candidates of the selection loop, with their indices and
scores, in iteration order. -/
def gatedList (fp cf : Vec3) (sd : ℝ) (sz : Nat → ℝ) : Nat → List WObj → List (Nat × ℝ)
  | _, [] => []
  | i, o :: rest =>
    if selGate fp sd sz i o then (i, selScore fp cf sd o) :: gatedList fp cf sd sz (i + 1) rest
    else gatedList fp cf sd sz (i + 1) rest

theorem selFold_eq_selRun (fp cf : Vec3) (sd : ℝ) (sz : Nat → ℝ) :
    ∀ (objs : List WObj) (i : Nat) (b : Option (Nat × ℝ)),
      selFold fp cf sd sz i objs b = selRun (gatedList fp cf sd sz i objs) b := by
  intro objs
  induction objs with
  | nil => intro i b; rw [selFold, gatedList, selRun]
  | cons o rest ih =>
    intro i b
    rw [selFold, gatedList]
    by_cases hg : selGate fp sd sz i o
    · rw [if_pos hg, if_pos hg]
      cases b with
      | none => rw [selRun]; exact ih (i + 1) _
      | some q =>
        rw [selRun]
        dsimp only
        by_cases hs : selScore fp cf sd o > q.2
        · rw [if_pos hs, if_pos hs]
          exact ih (i + 1) _
        · rw [if_neg hs, if_neg hs]
          exact ih (i + 1) _
    · rw [if_neg hg, if_neg hg]
      exact ih (i + 1) b

theorem gatedList_lb (fp cf : Vec3) (sd : ℝ) (sz : Nat → ℝ) :
    ∀ (objs : List WObj) (i : Nat), ∀ p ∈ gatedList fp cf sd sz i objs, i ≤ p.1 := by
  intro objs
  induction objs with
  | nil => intro i p hp; rw [gatedList] at hp; simp at hp
  | cons o rest ih =>
    intro i p hp
    rw [gatedList] at hp
    split at hp
    · rcases List.mem_cons.mp hp with rfl | hp
      · exact le_refl _
      · exact le_of_lt (Nat.lt_of_succ_le (ih (i + 1) p hp))
    · exact le_of_lt (Nat.lt_of_succ_le (ih (i + 1) p hp))

theorem gatedList_sorted (fp cf : Vec3) (sd : ℝ) (sz : Nat → ℝ) :
    ∀ (objs : List WObj) (i : Nat),
      (gatedList fp cf sd sz i objs).Pairwise (fun p q => p.1 < q.1) := by
  intro objs
  induction objs with
  | nil => intro i; rw [gatedList]; exact List.Pairwise.nil
  | cons o rest ih =>
    intro i
    rw [gatedList]
    split
    · refine List.Pairwise.cons ?_ (ih (i + 1))
      intro q hq
      exact Nat.lt_of_succ_le (gatedList_lb fp cf sd sz rest (i + 1) q hq)
    · exact ih (i + 1)

theorem gatedList_mem (fp cf : Vec3) (sd : ℝ) (sz : Nat → ℝ) :
    ∀ (objs : List WObj) (i : Nat) (p : Nat × ℝ),
      p ∈ gatedList fp cf sd sz i objs ↔
      ∃ k o, objs.get? k = some o ∧ selGate fp sd sz (i + k) o ∧
        p = (i + k, selScore fp cf sd o) := by
  intro objs
  induction objs with
  | nil =>
    intro i p
    rw [gatedList]
    simp
  | cons o rest ih =>
    intro i p
    rw [gatedList]
    by_cases hg : selGate fp sd sz i o
    · rw [if_pos hg, List.mem_cons, ih (i + 1) p]
      constructor
      · rintro (rfl | ⟨k, o2, hget, hgate, rfl⟩)
        · refine ⟨0, o, rfl, ?_, ?_⟩
          · simpa using hg
          · simp
        · refine ⟨k + 1, o2, ?_, ?_, ?_⟩
          · simpa using hget
          · have heq : i + (k + 1) = i + 1 + k := by omega
            rw [heq]
            exact hgate
          · have heq : i + (k + 1) = i + 1 + k := by omega
            rw [heq]
      · rintro ⟨k, o2, hget, hgate, rfl⟩
        cases k with
        | zero =>
          left
          simp only [List.get?_cons_zero] at hget
          injection hget with hget
          subst hget
          simp
        | succ k =>
          right
          refine ⟨k, o2, ?_, ?_, ?_⟩
          · simpa using hget
          · have heq : i + 1 + k = i + (k + 1) := by omega
            rw [heq]
            exact hgate
          · have heq : i + 1 + k = i + (k + 1) := by omega
            rw [heq]
    · rw [if_neg hg, ih (i + 1) p]
      constructor
      · rintro ⟨k, o2, hget, hgate, rfl⟩
        refine ⟨k + 1, o2, ?_, ?_, ?_⟩
        · simpa using hget
        · have heq : i + (k + 1) = i + 1 + k := by omega
          rw [heq]
          exact hgate
        · have heq : i + (k + 1) = i + 1 + k := by omega
          rw [heq]
      · rintro ⟨k, o2, hget, hgate, rfl⟩
        cases k with
        | zero =>
          simp only [List.get?_cons_zero] at hget
          injection hget with hget
          subst hget
          rw [Nat.add_zero] at hgate
          exact absurd hgate hg
        | succ k =>
          refine ⟨k, o2, ?_, ?_, ?_⟩
          · simpa using hget
          · have heq : i + 1 + k = i + (k + 1) := by omega
            rw [heq]
            exact hgate
          · have heq : i + 1 + k = i + (k + 1) := by omega
            rw [heq]

/-- Characterization of the best-candidate fold with a seeded
accumulator: the result is the accumulator if nothing strictly beats it,
else the first list entry attaining the maximum. -/
theorem selRun_some_char :
    ∀ (L : List (Nat × ℝ)) (j0 : Nat) (s0 : ℝ),
      L.Pairwise (fun p q => p.1 < q.1) → (∀ p ∈ L, j0 < p.1) →
      ∀ (j : Nat) (s : ℝ),
        (selRun L (some (j0, s0)) = some (j, s) ↔
          ((j, s) = (j0, s0) ∧ ∀ p ∈ L, p.2 ≤ s0) ∨
          ((j, s) ∈ L ∧ s0 < s ∧ (∀ p ∈ L, p.2 ≤ s) ∧
            (∀ p ∈ L, p.1 < j → p.2 < s))) := by
  intro L
  induction L with
  | nil =>
    intro j0 s0 _ _ j s
    rw [selRun]
    constructor
    · intro h
      injection h with h
      exact Or.inl ⟨h.symm, by simp⟩
    · rintro (⟨h, _⟩ | ⟨h, _⟩)
      · rw [h]
      · simp at h
  | cons hd L ihL =>
    intro j0 s0 hpw hb j s
    obtain ⟨k, t⟩ := hd
    rw [List.pairwise_cons] at hpw
    obtain ⟨hk, hpw2⟩ := hpw
    have hjk : j0 < k := hb (k, t) (by simp)
    have hb2 : ∀ p ∈ L, j0 < p.1 := fun p hp => hb p (by simp [hp])
    have hk2 : ∀ p ∈ L, k < p.1 := fun p hp => hk p hp
    rw [selRun]
    dsimp only
    by_cases ht : t > s0
    · rw [if_pos ht, ihL k t hpw2 hk2 j s]
      constructor
      · rintro (⟨hjs, hle⟩ | ⟨hmem, hts, hle, hfirst⟩)
        · have hj : j = k := by have := congrArg Prod.fst hjs; simpa using this
          have hs : s = t := by have := congrArg Prod.snd hjs; simpa using this
          subst hj
          subst hs
          right
          refine ⟨by simp, ht, ?_, ?_⟩
          · intro p hp
            rcases List.mem_cons.mp hp with rfl | hp
            · exact le_refl _
            · exact hle p hp
          · intro p hp hpj
            rcases List.mem_cons.mp hp with rfl | hp
            · dsimp only at hpj
              omega
            · exfalso
              have := hk2 p hp
              omega
        · right
          refine ⟨by simp [hmem], lt_trans ht hts, ?_, ?_⟩
          · intro p hp
            rcases List.mem_cons.mp hp with rfl | hp
            · exact le_of_lt hts
            · exact hle p hp
          · intro p hp hpj
            rcases List.mem_cons.mp hp with rfl | hp
            · exact hts
            · exact hfirst p hp hpj
      · rintro (⟨hjs, hle⟩ | ⟨hmem, hts, hle, hfirst⟩)
        · exfalso
          have := hle (k, t) (by simp)
          dsimp only at this
          linarith
        · rcases List.mem_cons.mp hmem with heq | hmem2
          · have hj : j = k := by have := congrArg Prod.fst heq; simpa using this
            have hs : s = t := by have := congrArg Prod.snd heq; simpa using this
            subst hj
            subst hs
            left
            exact ⟨rfl, fun p hp => hle p (by simp [hp])⟩
          · right
            have hkj : k < j := hk2 (j, s) hmem2
            exact ⟨hmem2, hfirst (k, t) (by simp) hkj, fun p hp => hle p (by simp [hp]),
              fun p hp hpj => hfirst p (by simp [hp]) hpj⟩
    · rw [if_neg ht]
      push_neg at ht
      rw [ihL j0 s0 hpw2 hb2 j s]
      constructor
      · rintro (⟨hjs, hle⟩ | ⟨hmem, hts, hle, hfirst⟩)
        · left
          refine ⟨hjs, ?_⟩
          intro p hp
          rcases List.mem_cons.mp hp with rfl | hp
          · exact ht
          · exact hle p hp
        · right
          refine ⟨by simp [hmem], hts, ?_, ?_⟩
          · intro p hp
            rcases List.mem_cons.mp hp with rfl | hp
            · dsimp only
              linarith
            · exact hle p hp
          · intro p hp hpj
            rcases List.mem_cons.mp hp with rfl | hp
            · dsimp only
              linarith
            · exact hfirst p hp hpj
      · rintro (⟨hjs, hle⟩ | ⟨hmem, hts, hle, hfirst⟩)
        · left
          exact ⟨hjs, fun p hp => hle p (by simp [hp])⟩
        · rcases List.mem_cons.mp hmem with heq | hmem2
          · exfalso
            have hs : s = t := by have := congrArg Prod.snd heq; simpa using this
            rw [hs] at hts
            linarith
          · right
            exact ⟨hmem2, hts, fun p hp => hle p (by simp [hp]),
              fun p hp hpj => hfirst p (by simp [hp]) hpj⟩

theorem selRun_some_ne_none : ∀ (L : List (Nat × ℝ)) (q : Nat × ℝ),
    selRun L (some q) ≠ none := by
  intro L
  induction L with
  | nil => intro q h; rw [selRun] at h; exact Option.some_ne_none _ h
  | cons p rest ih =>
    intro q h
    rw [selRun] at h
    by_cases hs : p.2 > q.2
    · rw [if_pos hs] at h; exact ih p h
    · rw [if_neg hs] at h; exact ih q h

/-- Characterization of the best-candidate fold from the empty
accumulator: `none` exactly when there is no candidate, else the first
candidate attaining the maximum score. -/
theorem selRun_none_char (L : List (Nat × ℝ)) (hpw : L.Pairwise (fun p q => p.1 < q.1)) :
    (selRun L none = none ↔ L = []) ∧
    (∀ (j : Nat) (s : ℝ), selRun L none = some (j, s) ↔
      ((j, s) ∈ L ∧ (∀ p ∈ L, p.2 ≤ s) ∧ (∀ p ∈ L, p.1 < j → p.2 < s))) := by
  cases L with
  | nil =>
    refine ⟨by rw [selRun]; simp, ?_⟩
    intro j s
    rw [selRun]
    simp
  | cons hd L =>
    obtain ⟨k, t⟩ := hd
    rw [List.pairwise_cons] at hpw
    obtain ⟨hk, hpw2⟩ := hpw
    have hrun : selRun ((k, t) :: L) none = selRun L (some (k, t)) := by rw [selRun]
    constructor
    · rw [hrun]
      constructor
      · intro h
        exact absurd h (selRun_some_ne_none L (k, t))
      · intro h
        exact absurd h (List.cons_ne_nil _ _)
    · intro j s
      rw [hrun, selRun_some_char L k t hpw2 hk j s]
      constructor
      · rintro (⟨hjs, hle⟩ | ⟨hmem, hts, hle, hfirst⟩)
        · have hj : j = k := by have := congrArg Prod.fst hjs; simpa using this
          have hs : s = t := by have := congrArg Prod.snd hjs; simpa using this
          subst hj
          subst hs
          refine ⟨by simp, ?_, ?_⟩
          · intro p hp
            rcases List.mem_cons.mp hp with rfl | hp
            · exact le_refl _
            · exact hle p hp
          · intro p hp hpj
            rcases List.mem_cons.mp hp with rfl | hp
            · dsimp only at hpj
              omega
            · exfalso
              have := hk p hp
              dsimp only at this
              omega
        · refine ⟨by simp [hmem], ?_, ?_⟩
          · intro p hp
            rcases List.mem_cons.mp hp with rfl | hp
            · exact le_of_lt hts
            · exact hle p hp
          · intro p hp hpj
            rcases List.mem_cons.mp hp with rfl | hp
            · exact hts
            · exact hfirst p hp hpj
      · rintro ⟨hmem, hle, hfirst⟩
        rcases List.mem_cons.mp hmem with heq | hmem2
        · have hj : j = k := by have := congrArg Prod.fst heq; simpa using this
          have hs : s = t := by have := congrArg Prod.snd heq; simpa using this
          subst hj
          subst hs
          left
          exact ⟨rfl, fun p hp => hle p (by simp [hp])⟩
        · right
          have hkj : k < j := by
            have := hk (j, s) hmem2
            simpa using this
          refine ⟨hmem2, ?_, fun p hp => hle p (by simp [hp]),
            fun p hp hpj => hfirst p (by simp [hp]) hpj⟩
          have := hfirst (k, t) (by simp) hkj
          simpa using this

theorem makeFrogsSwimToFolder_selectedObject (folder : Nat) (st : TankState) :
    (makeFrogsSwimToFolder folder st).selectedObject = st.selectedObject := by
  unfold makeFrogsSwimToFolder; (try dsimp only); repeat' split
  all_goals rfl

/-- C4: the focused object is the first world object, in list iteration
order, that maximizes the composite score among the objects passing the
three gates (distance, projected depth, height); with no candidate the
focus is `none`; and the selection tick stores exactly this object. -/
theorem selection_first_max (ext : FrameExt) (st : TankState) (frog : Frog) :
    (bestObjectOf ext st frog = none ↔
       ∀ k o, st.allObjects.get? k = some o →
         ¬ selGate frog.position st.config.world.selectionDistance ext.screenZ k o) ∧
    (∀ j : Nat, bestObjectOf ext st frog = some j ↔
       ∃ o, st.allObjects.get? j = some o ∧
         selGate frog.position st.config.world.selectionDistance ext.screenZ j o ∧
         (∀ k o2, st.allObjects.get? k = some o2 →
            selGate frog.position st.config.world.selectionDistance ext.screenZ k o2 →
            selScore frog.position ext.cameraForward st.config.world.selectionDistance o2 ≤
              selScore frog.position ext.cameraForward st.config.world.selectionDistance o) ∧
         (∀ k o2, k < j → st.allObjects.get? k = some o2 →
            selGate frog.position st.config.world.selectionDistance ext.screenZ k o2 →
            selScore frog.position ext.cameraForward st.config.world.selectionDistance o2 <
              selScore frog.position ext.cameraForward st.config.world.selectionDistance o)) ∧
    (st.frog = some frog →
       (updateObjectSelection ext st).selectedObject = bestObjectOf ext st frog) := by
  set fp := frog.position with hfp
  set cf := ext.cameraForward with hcf
  set sd := st.config.world.selectionDistance with hsd
  set sz := ext.screenZ with hsz
  set L := gatedList fp cf sd sz 0 st.allObjects with hL
  have hpw : L.Pairwise (fun p q => p.1 < q.1) := gatedList_sorted fp cf sd sz st.allObjects 0
  have hchar := selRun_none_char L hpw
  have hbest : bestObjectOf ext st frog = (selRun L none).map Prod.fst := by
    unfold bestObjectOf
    rw [selFold_eq_selRun]
  have hmem : ∀ p : Nat × ℝ, p ∈ L ↔
      ∃ k o, st.allObjects.get? k = some o ∧ selGate fp sd sz k o ∧
        p = (k, selScore fp cf sd o) := by
    intro p
    rw [hL, gatedList_mem fp cf sd sz st.allObjects 0 p]
    constructor
    · rintro ⟨k, o, hget, hgate, rfl⟩
      rw [Nat.zero_add] at hgate ⊢
      exact ⟨k, o, hget, hgate, rfl⟩
    · rintro ⟨k, o, hget, hgate, rfl⟩
      refine ⟨k, o, hget, ?_, ?_⟩
      · rw [Nat.zero_add]
        exact hgate
      · rw [Nat.zero_add]
  refine ⟨?_, ?_, ?_⟩
  · rw [hbest]
    rw [Option.map_eq_none']
    rw [hchar.1]
    constructor
    · intro hnil k o hget hgate
      have : (k, selScore fp cf sd o) ∈ L := (hmem _).mpr ⟨k, o, hget, hgate, rfl⟩
      rw [hnil] at this
      simp at this
    · intro hall
      rw [List.eq_nil_iff_forall_not_mem]
      intro p hp
      obtain ⟨k, o, hget, hgate, rfl⟩ := (hmem p).mp hp
      exact hall k o hget hgate
  · intro j
    rw [hbest]
    constructor
    · intro hmap
      rw [Option.map_eq_some'] at hmap
      obtain ⟨⟨j2, s⟩, hrun, hj2⟩ := hmap
      dsimp only at hj2
      subst hj2
      obtain ⟨hin, hle, hfirst⟩ := (hchar.2 j2 s).mp hrun
      obtain ⟨k, o, hget, hgate, hpk⟩ := (hmem _).mp hin
      have hk : j2 = k := by have := congrArg Prod.fst hpk; simpa using this
      have hs : s = selScore fp cf sd o := by
        have := congrArg Prod.snd hpk; simpa using this
      subst hk
      subst hs
      refine ⟨o, hget, hgate, ?_, ?_⟩
      · intro k2 o2 hget2 hgate2
        exact hle (k2, selScore fp cf sd o2) ((hmem _).mpr ⟨k2, o2, hget2, hgate2, rfl⟩)
      · intro k2 o2 hlt hget2 hgate2
        exact hfirst (k2, selScore fp cf sd o2)
          ((hmem _).mpr ⟨k2, o2, hget2, hgate2, rfl⟩) hlt
    · rintro ⟨o, hget, hgate, hle, hfirst⟩
      have hrun : selRun L none = some (j, selScore fp cf sd o) := by
        rw [hchar.2]
        refine ⟨(hmem _).mpr ⟨j, o, hget, hgate, rfl⟩, ?_, ?_⟩
        · intro p hp
          obtain ⟨k, o2, hget2, hgate2, rfl⟩ := (hmem p).mp hp
          exact hle k o2 hget2 hgate2
        · intro p hp hpj
          obtain ⟨k, o2, hget2, hgate2, rfl⟩ := (hmem p).mp hp
          exact hfirst k o2 hpj hget2 hgate2
      rw [hrun]
      rfl
  · intro hf
    unfold updateObjectSelection
    rw [hf]
    dsimp only
    by_cases hne : bestObjectOf ext st frog ≠ st.selectedObject
    · rw [if_pos hne]
      cases hbo : bestObjectOf ext st frog with
      | none => rfl
      | some sel => rw [makeFrogsSwimToFolder_selectedObject]
    · rw [if_neg hne]
      push_neg at hne
      exact hne.symm

/-! ## C1 (amended): pairwise sub-agent separation across full frames -/

theorem updateMovement_otherFrogs (q : Quat) (δ : ℝ) (st : TankState) :
    (updateMovement q δ st).otherFrogs = st.otherFrogs := by
  unfold updateMovement; (try dsimp only); repeat' split
  all_goals rfl

theorem updateAutopilot_otherFrogs (ext : FrameExt) (δ : ℝ) (st : TankState) :
    (updateAutopilot ext δ st).otherFrogs = st.otherFrogs := by
  unfold updateAutopilot; (try dsimp only); repeat' split
  all_goals rfl

theorem updateFrogAnimation_otherFrogs (δ : ℝ) (st : TankState) :
    (updateFrogAnimation δ st).otherFrogs = st.otherFrogs := by
  unfold updateFrogAnimation; (try dsimp only); repeat' split
  all_goals rfl

/-- Retargeting the sub-agents does not move them, so the pairwise
invariant and the shared separation floor survive. -/
theorem makeFrogsSwimToFolder_pairOK (folder : Nat) (st : TankState) (m : ℝ)
    (hm : ∀ a ∈ st.otherFrogs, a.minSeparation = m)
    (hsep : agentsPairOK m st.otherFrogs) :
    agentsPairOK m (makeFrogsSwimToFolder folder st).otherFrogs ∧
    ∀ a ∈ (makeFrogsSwimToFolder folder st).otherFrogs, a.minSeparation = m := by
  unfold makeFrogsSwimToFolder
  split
  · dsimp only
    constructor
    · unfold agentsPairOK at hsep ⊢
      rw [List.pairwise_map]
      exact hsep
    · intro a ha
      rw [List.mem_map] at ha
      obtain ⟨b, hb, rfl⟩ := ha
      exact hm b hb
  · exact ⟨hsep, hm⟩

/-- The selection tick either leaves the sub-agents alone or retargets
them without moving them. -/
theorem updateObjectSelection_pairOK (ext : FrameExt) (st : TankState) (m : ℝ)
    (hm : ∀ a ∈ st.otherFrogs, a.minSeparation = m)
    (hsep : agentsPairOK m st.otherFrogs) :
    agentsPairOK m (updateObjectSelection ext st).otherFrogs ∧
    ∀ a ∈ (updateObjectSelection ext st).otherFrogs, a.minSeparation = m := by
  unfold updateObjectSelection
  cases hf : st.frog with
  | none => exact ⟨hsep, hm⟩
  | some frog =>
    dsimp only
    by_cases hne : bestObjectOf ext st frog ≠ st.selectedObject
    · rw [if_pos hne]
      cases hbo : bestObjectOf ext st frog with
      | none => exact ⟨hsep, hm⟩
      | some sel =>
        exact makeFrogsSwimToFolder_pairOK sel _ m hm hsep
    · rw [if_neg hne]
      exact ⟨hsep, hm⟩

/-- The per-frame sub-agent update preserves the pairwise invariant for
whatever avatar position the frame carries. -/
theorem updateAdditionalFrogs_pairOK (δ : ℝ) (st : TankState) (m : ℝ)
    (hm : ∀ a ∈ st.otherFrogs, a.minSeparation = m)
    (hsep : agentsPairOK m st.otherFrogs) :
    agentsPairOK m (updateAdditionalFrogs δ st).otherFrogs ∧
    ∀ a ∈ (updateAdditionalFrogs δ st).otherFrogs, a.minSeparation = m := by
  unfold updateAdditionalFrogs
  split
  · dsimp only
    exact agentsGo_pairOK st.frogPosition st.allObjects δ m st.otherFrogs []
      (by simpa using hm) (by simpa using hsep)
  · exact ⟨hsep, hm⟩

/-- One full open-water frame — the avatar moving as it will — preserves
the pairwise sub-agent separation invariant. -/
theorem owFrame_pairOK (ext : FrameExt) (δ : ℝ) (st : TankState) (m : ℝ)
    (hm : ∀ a ∈ st.otherFrogs, a.minSeparation = m)
    (hsep : agentsPairOK m st.otherFrogs) :
    agentsPairOK m (owFrame ext δ st).otherFrogs ∧
    ∀ a ∈ (owFrame ext δ st).otherFrogs, a.minSeparation = m := by
  unfold owFrame
  rw [checkCollisions_otherFrogs, updateEnvironment_otherFrogs]
  set stp := updateFrogAnimation δ (updateAutopilot ext δ (updateMovement ext.cameraQuat δ st))
    with hstp
  have hp : stp.otherFrogs = st.otherFrogs := by
    rw [hstp, updateFrogAnimation_otherFrogs, updateAutopilot_otherFrogs,
      updateMovement_otherFrogs]
  obtain ⟨ha1, ha2⟩ := updateAdditionalFrogs_pairOK δ stp m (by rw [hp]; exact hm)
    (by rw [hp]; exact hsep)
  have hc : (updateCameraPosition (updateAdditionalFrogs δ stp)).otherFrogs =
      (updateAdditionalFrogs δ stp).otherFrogs := updateCameraPosition_otherFrogs _
  exact updateObjectSelection_pairOK ext (updateCameraPosition (updateAdditionalFrogs δ stp)) m
    (by rw [hc]; exact ha2) (by rw [hc]; exact ha1)

/-- C1 (amended): for every sequence of open-water frames, no two
sub-agents sharing the separation floor `m = minSeparation` are ever
closer than `m` at any sampled tick, with no constraint on the avatar —
the `wouldCauseOverlap` guard protects every sub-agent position commit
against all other sub-agents.  The sub-agent-to-avatar half of the
original invariant is false: the avatar's own movement is unconstrained
(see the counterexample). -/
theorem pairwise_separation_amended (l : List (FrameExt × ℝ)) :
    ∀ (st : TankState) (m : ℝ),
      (∀ a ∈ st.otherFrogs, a.minSeparation = m) → agentsPairOK m st.otherFrogs →
      agentsPairOK m (owFrames l st).otherFrogs ∧
      ∀ a ∈ (owFrames l st).otherFrogs, a.minSeparation = m := by
  induction l with
  | nil =>
    intro st m hm hsep
    rw [owFrames]
    exact ⟨hsep, hm⟩
  | cons p rest ih =>
    intro st m hm hsep
    obtain ⟨pe, pδ⟩ := p
    rw [owFrames]
    obtain ⟨h1, h2⟩ := owFrame_pairOK pe pδ st m hm hsep
    exact ih (owFrame pe pδ st) m h2 h1

/-- A flocking-active tank with two sub-agents 10 apart and the avatar
among them, for the C1 witness. -/
def pairTank : TankState :=
  { emptyTank with
      frog := some ⟨⟨0, 0, 0⟩, 0⟩
      multiFrogMode := true
      otherFrogs := [farAgentA, farAgentB]
      autopilot := some (autopilotInit 0) }

/-- Witness for the amended C1 theorem: one concrete 0.1 s frame from a
flocking-active state with two agents 10 apart. -/
theorem pairwise_separation_amended_witness :
    agentsPairOK 1.5 (owFrames [(baseExt, 1 / 10)] pairTank).otherFrogs ∧
    ∀ a ∈ (owFrames [(baseExt, 1 / 10)] pairTank).otherFrogs, a.minSeparation = 1.5 := by
  apply pairwise_separation_amended
  · intro a ha
    have ha2 : a ∈ [farAgentA, farAgentB] := ha
    rcases List.mem_cons.mp ha2 with rfl | ha3
    · rfl
    · rcases List.mem_cons.mp ha3 with rfl | ha4
      · rfl
      · simp at ha4
  · show agentsPairOK 1.5 [farAgentA, farAgentB]
    unfold agentsPairOK
    refine List.Pairwise.cons ?_ (List.pairwise_singleton _ _)
    intro b hb
    rcases List.mem_singleton.mp hb with rfl
    show (1.5 : ℝ) ≤ Vec3.distanceTo ⟨0, 0, 0⟩ ⟨10, 0, 0⟩
    apply Vec3.le_distanceTo_of_sq_le (by norm_num)
    norm_num [Vec3.lengthSq]
